import Mathlib

/-!
Verification of the sqlglot recursive-descent parser (`sqlglot/parser.py`)
against its natural-language specification.

The parser, the `list_get` helper (`sqlglot/helper.py`) and the behaviour
exercised by `tests/test_parser.py` are embedded shallowly below.  The
repository files `sqlglot/tokens.py`, `sqlglot/errors.py` and
`sqlglot/expressions.py` are not part of the source tree available here;
the few facts the parser needs from them (the token record, the error
levels, the expression schema `arg_types`, `Token.string`, `from_arg_list`,
`walk`) are modelled from the specification and are marked
`Modelled from the spec:` in their doc comments.

Conventions of the embedding:
  * Python's dynamically typed values (None, bool, str, Token, Expression,
    list) are represented by the inductive type `Val`.
  * The mutable parser object becomes a state `PState`; the stored cursor
    triple `(_prev, _curr, _next)` is recomputed from `index` exactly as
    `_advance` would store it, so it is represented as three derived views
    of the state.
  * Exceptions (`ParseError`, Python `UnboundLocalError`/`AttributeError`,
    and fuel exhaustion of the embedding) are the error side of `Except`.
  * Every parser routine is a value of `PM α`, a state monad whose values
    carry a proof that a successful run never decreases the cursor index
    (the code's only state writes are `_advance`, which increments it, and
    the error bookkeeping, which leaves it unchanged).
  * Unbounded Python recursion becomes structural recursion on a fuel
    argument; running out of fuel is the distinguished error `PErr.fuel`.
-/

namespace Sqlglot

/-- The token kinds referenced by `sqlglot/parser.py`.  The enumeration
lives in the missing `sqlglot/tokens.py`; the constructors are exactly the
`TokenType` members the parser names. -/
inductive TokenType where
  | SEMICOLON | L_PAREN | R_PAREN | L_BRACKET | R_BRACKET | COMMA | DOT | DCOLON
  | EQ | NEQ | GT | GTE | LT | LTE | LSHIFT | RSHIFT | AMP | CARET | PIPE | DPIPE
  | DASH | PLUS | MOD | DIV | SLASH | STAR | TILDA
  | AND | OR | NOT | IS | LIKE | RLIKE | IN | BETWEEN
  | SELECT | DISTINCT | HINT | COMMENT_END | FROM | LATERAL | VIEW | OUTER
  | VALUES | SET | WHERE | GROUP | HAVING | ORDER | ASC | DESC | LIMIT
  | UNION | ALL | JOIN | LEFT | RIGHT | FULL | INNER | CROSS | ON
  | UNNEST | ORDINALITY | CASE | WHEN | THEN | ELSE | END
  | CAST | COUNT | EXTRACT | OVER | PARTITION | ROWS | RANGE | UNBOUNDED
  | CURRENT_ROW | PRECEDING | FOLLOWING | INTERVAL
  | STRING | NUMBER | NULL | IDENTIFIER | VAR
  | CREATE | DROP | INSERT | UPDATE | TABLE | TEMPORARY | REPLACE | STORED
  | WITH | WITHOUT | RECURSIVE | ALIAS | FORMAT | IF | EXISTS | INTO | OVERWRITE
  | ENGINE | AUTO_INCREMENT | COLLATE | SCHEMA_COMMENT | CHARACTER_SET | DEFAULT
  | TIME | ZONE
  | BOOLEAN | TINYINT | SMALLINT | INT | BIGINT | FLOAT | DOUBLE | CHAR
  | VARCHAR | TEXT | BINARY | JSON | TIMESTAMP | TIMESTAMPTZ | DATE | ARRAY
  | DECIMAL | MAP
  deriving DecidableEq, Repr

/-- A lexed token: kind tag, original text and 1-based source coordinates
(spec section 3, "Token"). -/
structure Token where
  token_type : TokenType
  text : String
  line : Nat
  col : Nat
  deriving DecidableEq, Repr

/-- Modelled from the spec: `Token.string` (defined in the missing
`sqlglot/tokens.py`) builds a synthetic string token.  Positions are
1-based (spec section 6) and the WARN-policy messages of scenario 4 show
`Line 1, Col: 1.` for it, so it sits at line 1, column 1. -/
def Token.string (text : String) : Token :=
  { token_type := TokenType.STRING, text := text, line := 1, col := 1 }

/-- `helper.list_get`: `arr[index] if index < len(arr) else None`.  Python
would wrap a negative index around; no call site ever passes a negative
index to a read (the `_prev` view is guarded by `index > 0`, and `parse`
advances immediately after setting the index to -1), so negative indices
are mapped to `none`. -/
def list_get (arr : List Token) (index : Int) : Option Token :=
  if 0 ≤ index ∧ index < (arr.length : Int) then arr.get? index.toNat else none

/-- Modelled from the spec: the error policy (`sqlglot/errors.py` is not in
the source tree).  Spec section 7: `error_level ∈ RAISE, WARN, IGNORE`. -/
inductive ErrorLevel where
  | RAISE | WARN | IGNORE
  deriving DecidableEq, Repr

/-- Errors a run of the embedded parser can end in: a raised `ParseError`
(carrying the rendered message), a Python `UnboundLocalError` (reading a
never-assigned local), a Python `AttributeError` (attribute access on a
value that lacks it, e.g. `None.token_type`), and exhaustion of the fuel
that bounds the embedding's recursion. -/
inductive PErr where
  | parseError (message : String)
  | unboundLocal (name : String)
  | attributeError (name : String)
  | fuel
  deriving DecidableEq, Repr

/-- The expression kinds (`exp.*` classes) that `sqlglot/parser.py`
constructs, plus `If` from the function registry. -/
inductive EKind where
  | Hint | Select | From | Where | Group | Having | Order | Ordered | Limit
  | Union | CTE | Column | Identifier | Literal | Star | Null | DataType
  | Alias | Table | Create | Drop | Insert | Update | Values | Tuple
  | FileFormat | CharacterSet | Lateral | Join | Unnest
  | And | Or | EQ | NEQ | Is | GT | GTE | LT | LTE
  | BitwiseLeftShift | BitwiseRightShift | BitwiseAnd | BitwiseXor | BitwiseOr
  | DPipe | Minus | Plus | Mod | IntDiv | Div | Mul
  | Like | RegexLike | In | Between | Not | BitwiseNot | Neg
  | Interval | Cast | ColumnDef | Paren | Schema | Anonymous
  | Case | If | Count | Extract | Window | WindowSpec
  | Array | Bracket | Dot | Decimal
  deriving DecidableEq, Repr

mutual
/-- An AST node: a kind tag and the `args` mapping (an association list,
Python keyword arguments in call order).  The `parent`/`arg_key`
back-references written by the post-pass are modelled separately by
`walk` below, keeping the tree strictly owned top-down as spec section 9
recommends. -/
inductive Expression where
  | mk (kind : EKind) (args : List (String × Val))

/-- A Python value as the parser passes them around: `None`, a bool, a
string, a raw `Token`, an `Expression`, or a list. -/
inductive Val where
  | vnone
  | vbool (b : Bool)
  | vstr (s : String)
  | vtok (t : Token)
  | vexp (e : Expression)
  | vlist (xs : List Val)
end

def Expression.kind : Expression → EKind
  | .mk k _ => k

def Expression.args : Expression → List (String × Val)
  | .mk _ a => a

/-- Python truthiness for the values the parser tests with `if x:`. -/
def truthy : Val → Bool
  | .vnone => false
  | .vbool b => b
  | .vstr s => !s.isEmpty
  | .vtok _ => true
  | .vexp _ => true
  | .vlist xs => !xs.isEmpty

/-- An `Option Token` (the result of `_match`) used where Python treats it
as a plain value. -/
def optTok : Option Token → Val
  | some t => .vtok t
  | none => .vnone

/-- `expression.args.get(k)`: the value of slot `k`, `None` when absent. -/
def args_get (args : List (String × Val)) (k : String) : Val :=
  match args.find? (fun p => p.1 == k) with
  | some p => p.2
  | none => .vnone

/-- Concatenation of string pieces at the character-list level (the
f-string concatenations of the source, in a form the kernel reduces
reliably). -/
def strcat (parts : List String) : String := String.mk (parts.map String.data).flatten

/-- The single-quote character, used to render Python messages such as
`Required keyword: 'this' missing`. -/
def sq : String := String.singleton (Char.ofNat 39)

/-- Wrap a string in single quotes, as Python f-strings with `'{k}'` do. -/
def quoteStr (s : String) : String := strcat [sq, s, sq]

/-- How Python prints `expression.__class__` inside the two validation
messages, e.g. `<class 'sqlglot.expressions.Hint'>`. -/
def class_name (k : EKind) : String :=
  let n :=
    match k with
    | .Hint => "Hint" | .Select => "Select" | .From => "From" | .Where => "Where"
    | .Group => "Group" | .Having => "Having" | .Order => "Order"
    | .Ordered => "Ordered" | .Limit => "Limit" | .Union => "Union"
    | .CTE => "CTE" | .Column => "Column" | .Identifier => "Identifier"
    | .Literal => "Literal" | .Star => "Star" | .Null => "Null"
    | .DataType => "DataType" | .Alias => "Alias" | .Table => "Table"
    | .Create => "Create" | .Drop => "Drop" | .Insert => "Insert"
    | .Update => "Update" | .Values => "Values" | .Tuple => "Tuple"
    | .FileFormat => "FileFormat" | .CharacterSet => "CharacterSet"
    | .Lateral => "Lateral" | .Join => "Join" | .Unnest => "Unnest"
    | .And => "And" | .Or => "Or" | .EQ => "EQ" | .NEQ => "NEQ" | .Is => "Is"
    | .GT => "GT" | .GTE => "GTE" | .LT => "LT" | .LTE => "LTE"
    | .BitwiseLeftShift => "BitwiseLeftShift"
    | .BitwiseRightShift => "BitwiseRightShift"
    | .BitwiseAnd => "BitwiseAnd" | .BitwiseXor => "BitwiseXor"
    | .BitwiseOr => "BitwiseOr" | .DPipe => "DPipe" | .Minus => "Minus"
    | .Plus => "Plus" | .Mod => "Mod" | .IntDiv => "IntDiv" | .Div => "Div"
    | .Mul => "Mul" | .Like => "Like" | .RegexLike => "RegexLike"
    | .In => "In" | .Between => "Between" | .Not => "Not"
    | .BitwiseNot => "BitwiseNot" | .Neg => "Neg" | .Interval => "Interval"
    | .Cast => "Cast" | .ColumnDef => "ColumnDef" | .Paren => "Paren"
    | .Schema => "Schema" | .Anonymous => "Anonymous" | .Case => "Case"
    | .If => "If" | .Count => "Count" | .Extract => "Extract"
    | .Window => "Window" | .WindowSpec => "WindowSpec" | .Array => "Array"
    | .Bracket => "Bracket" | .Dot => "Dot" | .Decimal => "Decimal"
  strcat ["<class ", quoteStr (strcat ["sqlglot.expressions.", n]), ">"]

/-- Modelled from the spec: each node kind's `arg_types` (slot name,
mandatory?).  The schema lives in the missing `sqlglot/expressions.py`;
the slot lists are reconstructed from the parser's construction sites
(every keyword argument it ever passes), and a slot is marked mandatory
only where the spec or the repository's tests pin it down: `Hint.this`
(scenario 4) and `If.this`, `If.true` (scenario 5, `IF(a > 0)` raises a
missing-mandatory-slot violation; scenario 1 shows `If(this=.., true=..)`
with optional `false`). -/
def arg_types (k : EKind) : List (String × Bool) :=
  match k with
  | .Hint => [("this", true)]
  | .Select =>
      [("hint", false), ("distinct", false), ("expressions", false),
       ("from", false), ("laterals", false), ("joins", false),
       ("where", false), ("group", false), ("having", false),
       ("order", false), ("limit", false)]
  | .From => [("expressions", false)]
  | .Where => [("this", false)]
  | .Group => [("expressions", false)]
  | .Having => [("this", false)]
  | .Order => [("expressions", false)]
  | .Ordered => [("this", false), ("desc", false)]
  | .Limit => [("this", false)]
  | .Union => [("this", false), ("expression", false), ("distinct", false)]
  | .CTE => [("this", false), ("expressions", false), ("recursive", false)]
  | .Column => [("this", false), ("db", false), ("table", false), ("fields", false)]
  | .Identifier => [("this", false), ("quoted", false)]
  | .Literal => [("this", false), ("is_string", false)]
  | .Star => []
  | .Null => []
  | .DataType => [("this", false)]
  | .Alias => [("this", false), ("alias", false)]
  | .Table => [("this", false), ("db", false)]
  | .Create =>
      [("this", false), ("kind", false), ("expression", false),
       ("exists", false), ("file_format", false), ("temporary", false),
       ("replace", false), ("engine", false), ("auto_increment", false),
       ("character_set", false), ("collate", false), ("comment", false)]
  | .Drop => [("this", false), ("kind", false), ("exists", false)]
  | .Insert => [("this", false), ("exists", false), ("expression", false), ("overwrite", false)]
  | .Update => [("this", false), ("expressions", false), ("where", false)]
  | .Values => [("expressions", false)]
  | .Tuple => [("expressions", false)]
  | .FileFormat => [("this", false)]
  | .CharacterSet => [("this", false), ("default", false)]
  | .Lateral => [("this", false), ("outer", false), ("table", false), ("columns", false)]
  | .Join => [("this", false), ("side", false), ("kind", false), ("on", false)]
  | .Unnest =>
      [("expressions", false), ("ordinality", false), ("table", false), ("columns", false)]
  | .And | .Or | .EQ | .NEQ | .Is | .GT | .GTE | .LT | .LTE
  | .BitwiseLeftShift | .BitwiseRightShift | .BitwiseAnd | .BitwiseXor
  | .BitwiseOr | .DPipe | .Minus | .Plus | .Mod | .IntDiv | .Div | .Mul
  | .Like | .RegexLike | .Dot => [("this", false), ("expression", false)]
  | .In => [("this", false), ("query", false), ("expressions", false)]
  | .Between => [("this", false), ("low", false), ("high", false)]
  | .Not | .BitwiseNot | .Neg | .Paren => [("this", false)]
  | .Interval => [("this", false), ("unit", false)]
  | .Cast => [("this", false), ("to", false)]
  | .ColumnDef =>
      [("this", false), ("kind", false), ("not_null", false),
       ("auto_increment", false), ("collate", false), ("comment", false),
       ("default", false)]
  | .Schema => [("this", false), ("expressions", false)]
  | .Anonymous => [("this", false), ("expressions", false)]
  | .Case => [("this", false), ("ifs", false), ("default", false)]
  | .If => [("this", true), ("true", true), ("false", false)]
  | .Count => [("distinct", false), ("this", false)]
  | .Extract => [("this", false), ("expression", false)]
  | .Window => [("this", false), ("partition", false), ("order", false), ("spec", false)]
  | .WindowSpec =>
      [("kind", false), ("start", false), ("start_side", false),
       ("end", false), ("end_side", false)]
  | .Array => [("expressions", false)]
  | .Bracket => [("this", false), ("expressions", false)]
  | .Decimal => [("precision", false), ("scale", false)]

/-- Modelled from the spec: no node the claims exercise advertises variable
arity (`If` is checked against its three slots in scenario 5, so it is not
variable-arity). -/
def is_var_len_args (_ : EKind) : Bool := false

/-! ## Parser state and monad -/

/-- The mutable parser fields a `parse` call uses: `_tokens` and `_index`
(the cursor over the current chunk), `code` (the original SQL, for error
rendering), `error` (the most recent `ParseError`), and the messages
`logging.error` was handed under the WARN policy. -/
structure PState where
  tokens : List Token
  index : Int
  code : String
  error : Option String
  logged : List String
  deriving Repr

/-- `self._curr`, as `_advance` stores it: `list_get(self._tokens, self._index)`. -/
def PState.curr (s : PState) : Option Token := list_get s.tokens s.index

/-- `self._next`: `list_get(self._tokens, self._index + 1)`. -/
def PState.nxt (s : PState) : Option Token := list_get s.tokens (s.index + 1)

/-- `self._prev`: `list_get(self._tokens, self._index - 1) if self._index > 0 else None`. -/
def PState.prev (s : PState) : Option Token :=
  if s.index > 0 then list_get s.tokens (s.index - 1) else none

/-- `Parser._advance`: move the cursor one token to the right (the stored
views `_curr`/`_next`/`_prev` are the derived views above). -/
def advanceState (s : PState) : PState := { s with index := s.index + 1 }

/-- A run of a parser routine: it either raises or returns a value and the
updated state. -/
def M (α : Type) : Type := PState → Except PErr (α × PState)

/-- Index monotonicity: a successful run never moves the cursor left.  The
source has exactly one write to `_index` inside statement parsing —
`_advance`'s increment — so every routine enjoys this. -/
def Mono {α : Type} (m : M α) : Prop :=
  ∀ s r s', m s = Except.ok (r, s') → s.index ≤ s'.index

/-- A parser routine packaged with its index-monotonicity proof. -/
def PM (α : Type) : Type := { m : M α // Mono m }

/-- Run a `PM` computation on a state. -/
def PM.run (m : PM α) (s : PState) : Except PErr (α × PState) := m.val s

instance : Monad PM where
  pure a :=
    ⟨fun s => .ok (a, s), by
      intro s r s' h
      injection h with h
      injection h with h1 h2
      subst h2
      exact le_refl _⟩
  bind m f :=
    ⟨fun s =>
      match m.val s with
      | .error e => .error e
      | .ok (a, s1) => (f a).val s1, by
      intro s r s' h
      simp only [] at h
      cases hmv : m.val s with
      | error e => rw [hmv] at h; exact absurd h (by simp)
      | ok p =>
        obtain ⟨a, s1⟩ := p
        rw [hmv] at h
        exact le_trans (m.property s a s1 hmv) ((f a).property s1 r s' h)⟩

/-- Read a pure view of the state (used for `self._curr` etc.). -/
def readState (f : PState → α) : PM α :=
  ⟨fun s => .ok (f s, s), by
    intro s r s' h
    injection h with h
    injection h with h1 h2
    subst h2
    exact le_refl _⟩

def getCurr : PM (Option Token) := readState PState.curr

def getNext : PM (Option Token) := readState PState.nxt

def getPrev : PM (Option Token) := readState PState.prev

/-- Abort the run with an error (never returns, so vacuously monotone). -/
def throwErr (e : PErr) : PM α :=
  ⟨fun _ => .error e, by intro s r s' h; exact absurd h (by simp)⟩

/-- The embedding's fuel ran out. -/
def throwFuel : PM α := throwErr .fuel

/-- Python raised `UnboundLocalError` for the named local. -/
def unboundLocal (name : String) : PM α := throwErr (.unboundLocal name)

/-- Python raised `AttributeError` for the named attribute. -/
def attributeError (name : String) : PM α := throwErr (.attributeError name)

/-- `Parser._match(*types)`: when the current token's kind is among `types`,
advance and return the consumed token (`self._prev` after the advance);
otherwise return `None` and leave the state untouched. -/
def pmatch (types : List TokenType) : PM (Option Token) :=
  ⟨fun s =>
    match s.curr with
    | none => .ok (none, s)
    | some t =>
      if types.contains t.token_type then .ok ((advanceState s).prev, advanceState s)
      else .ok (none, s),
   by
    intro s r s' h
    simp only [] at h
    cases hc : s.curr with
    | none =>
      rw [hc] at h
      simp only [] at h
      injection h with h
      injection h with h1 h2
      subst h2
      exact le_refl _
    | some t =>
      rw [hc] at h
      simp only [] at h
      split at h
      · injection h with h
        injection h with h1 h2
        subst h2
        exact le_of_lt (lt_add_one s.index)
      · injection h with h
        injection h with h1 h2
        subst h2
        exact le_refl _⟩

/-! ## Error rendering (`Parser.raise_error` and `Parser._find_token`) -/

/-- Default `error_message_context` (constructor argument, default 50). -/
def error_message_context : Nat := 50

/-- The loop body of `Parser._find_token`: scan the code forward until the
token's 1-based line/column is reached and return the character offset.
Python would raise `IndexError` if the code ran out first; that situation
is unreachable for the inputs the parser renders, and the scan then simply
stops at the end of the code. -/
def find_token_aux : List Char → Nat → Nat → Nat → Nat → Nat → Nat
  | [], _, _, index, _, _ => index
  | c :: rest, line, col, index, tline, tcol =>
    if line < tline ∨ col < tcol then
      if c = Char.ofNat 10 then find_token_aux rest (line + 1) 1 (index + 1) tline tcol
      else find_token_aux rest line (col + 1) (index + 1) tline tcol
    else index

/-- `Parser._find_token(token, code)`. -/
def find_token (token : Token) (code : String) : Nat :=
  find_token_aux code.toList 1 1 0 token.line token.col

/-- Python slicing `code[a:b]` for `0 ≤ a ≤ b` (all the slices
`raise_error` takes are of this shape; out-of-range bounds clamp). -/
def str_slice (code : String) (a b : Nat) : String :=
  String.mk ((code.toList.drop a).take (b - a))

/-- The rendered diagnostic of `raise_error`:
`<message>. Line L, Col: C.` followed by the highlighted context line. -/
def render_error (message : String) (token : Token) (code : String) : String :=
  let start := find_token token code
  let endPos := start + token.text.length
  let start_context := str_slice code (start - error_message_context) start
  let highlight := str_slice code start endPos
  let end_context := str_slice code endPos (endPos + error_message_context)
  strcat [message, ". Line ", toString token.line, ", Col: ", toString token.col,
    ".\n", start_context, "\x1b[4m", highlight, "\x1b[0m", end_context]

/-- The state-transformer core of `Parser.raise_error`: pick the reference
token (`token or self._curr or self._prev or Token.string("")`), render the
message, store it in `self.error`, then raise under RAISE, log under WARN,
and merely keep it under IGNORE. -/
def raise_error_core (lvl : ErrorLevel) (message : String) (tok : Option Token)
    (s : PState) : Except PErr (Unit × PState) :=
  let token :=
    match tok with
    | some t => t
    | none =>
      match s.curr with
      | some t => t
      | none =>
        match s.prev with
        | some t => t
        | none => Token.string ""
  let msg := render_error message token s.code
  let s1 := { s with error := some msg }
  match lvl with
  | .RAISE => .error (.parseError msg)
  | .WARN => .ok ((), { s1 with logged := s1.logged ++ [msg] })
  | .IGNORE => .ok ((), s1)

/-- `Parser.raise_error` as a monadic action. -/
def raise_error (lvl : ErrorLevel) (message : String) (tok : Option Token) : PM Unit :=
  ⟨raise_error_core lvl message tok, by
    intro s r s' h
    unfold raise_error_core at h
    cases lvl with
    | RAISE => exact absurd h (by simp)
    | WARN =>
      injection h with h
      injection h with h1 h2
      subst h2
      exact le_refl _
    | IGNORE =>
      injection h with h
      injection h with h1 h2
      subst h2
      exact le_refl _⟩

/-! ## Token sets and operator tables (class attributes of `Parser`) -/

/-- `Parser.TYPE_TOKENS`. -/
def TYPE_TOKENS : List TokenType :=
  [.BOOLEAN, .TINYINT, .SMALLINT, .INT, .BIGINT, .FLOAT, .DOUBLE, .CHAR,
   .VARCHAR, .TEXT, .BINARY, .JSON, .TIMESTAMP, .TIMESTAMPTZ, .DATE, .ARRAY,
   .DECIMAL, .MAP]

/-- `Parser.AMBIGUOUS_TOKEN_TYPES` — "Tokens that can also be functions". -/
def AMBIGUOUS_TOKEN_TYPES : List TokenType := [.ARRAY, .DATE, .MAP]

/-- `Parser.ID_VAR_TOKENS`. -/
def ID_VAR_TOKENS : List TokenType :=
  [.IDENTIFIER, .VAR, .ALL, .ASC, .COLLATE, .COUNT, .DEFAULT, .DESC, .ENGINE,
   .FOLLOWING, .FORMAT, .IF, .INTERVAL, .ORDINALITY, .OVER, .PRECEDING,
   .RANGE, .ROWS, .SCHEMA_COMMENT, .UNBOUNDED] ++ TYPE_TOKENS

/-- `Parser.PRIMARY_TOKENS`. -/
def PRIMARY_TOKENS : List TokenType := [.STRING, .NUMBER, .STAR, .NULL]

/-- `Parser.COLUMN_TOKENS`: the identifier tokens plus `STAR`, minus `ARRAY`. -/
def COLUMN_TOKENS : List TokenType :=
  ((ID_VAR_TOKENS ++ [TokenType.STAR]).filter (fun t => t ≠ TokenType.ARRAY))

/-- `Parser.NON_COLUMN_TOKENS`. -/
def NON_COLUMN_TOKENS : List TokenType := [.COMMA, .R_PAREN, .WHEN]

/-- `Parser.CONJUNCTION`. -/
def CONJUNCTION : List (TokenType × EKind) := [(.AND, .And), (.OR, .Or)]

/-- `Parser.EQUALITY`. -/
def EQUALITY : List (TokenType × EKind) := [(.EQ, .EQ), (.NEQ, .NEQ), (.IS, .Is)]

/-- `Parser.COMPARISON`. -/
def COMPARISON : List (TokenType × EKind) :=
  [(.GT, .GT), (.GTE, .GTE), (.LT, .LT), (.LTE, .LTE)]

/-- `Parser.BITWISE`. -/
def BITWISE : List (TokenType × EKind) :=
  [(.LSHIFT, .BitwiseLeftShift), (.RSHIFT, .BitwiseRightShift),
   (.AMP, .BitwiseAnd), (.CARET, .BitwiseXor), (.PIPE, .BitwiseOr),
   (.DPIPE, .DPipe)]

/-- `Parser.TERM`. -/
def TERM : List (TokenType × EKind) := [(.DASH, .Minus), (.PLUS, .Plus), (.MOD, .Mod)]

/-- `Parser.FACTOR`. -/
def FACTOR : List (TokenType × EKind) := [(.DIV, .IntDiv), (.SLASH, .Div), (.STAR, .Mul)]

/-! ## Token-to-node coercion and the node factory -/

/-- Modelled from the spec: `exp.Literal.string(text)` — a string literal
node (spec section 4.B, `STRING → string literal`). -/
def Literal.string (text : String) : Expression :=
  .mk .Literal [("this", .vstr text), ("is_string", .vbool true)]

/-- Modelled from the spec: `exp.Literal.number(text)` — a number literal
node (spec section 4.B, `NUMBER → number literal`). -/
def Literal.number (text : String) : Expression :=
  .mk .Literal [("this", .vstr text), ("is_string", .vbool false)]

/-- Modelled from the spec: the name of `exp.DataType.Type[t.token_type.value]`
for a type token, i.e. the token kind's own name (the enumeration uses
auto-naming, so `value` is the member name). -/
def type_token_name : TokenType → String
  | .BOOLEAN => "BOOLEAN" | .TINYINT => "TINYINT" | .SMALLINT => "SMALLINT"
  | .INT => "INT" | .BIGINT => "BIGINT" | .FLOAT => "FLOAT"
  | .DOUBLE => "DOUBLE" | .CHAR => "CHAR" | .VARCHAR => "VARCHAR"
  | .TEXT => "TEXT" | .BINARY => "BINARY" | .JSON => "JSON"
  | .TIMESTAMP => "TIMESTAMP" | .TIMESTAMPTZ => "TIMESTAMPTZ"
  | .DATE => "DATE" | .ARRAY => "ARRAY" | .DECIMAL => "DECIMAL" | .MAP => "MAP"
  | _ => ""

/-- `Parser.TOKEN_TO_EXPRESSION`: the fixed token-to-node mapping. -/
def TOKEN_TO_EXPRESSION (t : Token) : Option Expression :=
  match t.token_type with
  | .STAR => some (.mk .Star [])
  | .NULL => some (.mk .Null [])
  | .STRING => some (Literal.string t.text)
  | .NUMBER => some (Literal.number t.text)
  | .IDENTIFIER => some (.mk .Identifier [("this", .vstr t.text), ("quoted", .vbool true)])
  | .VAR => some (.mk .Identifier [("this", .vstr t.text), ("quoted", .vbool false)])
  | ty =>
    if TYPE_TOKENS.contains ty then
      some (.mk .DataType [("this", .vstr (type_token_name ty))])
    else none

/-- `Parser._ensure_non_token`: tokens collapse to their semantic node via
the mapping, or to their text; everything else passes through. -/
def ensure_non_token (v : Val) : Val :=
  match v with
  | .vtok t =>
    match TOKEN_TO_EXPRESSION t with
    | some e => .vexp e
    | none => .vstr t.text
  | _ => v

/-- The per-keyword-argument normalization inside `Parser.expression`:
lists are mapped elementwise, other values directly. -/
def ensure_arg (v : Val) : Val :=
  match v with
  | .vlist xs => .vlist (xs.map ensure_non_token)
  | _ => ensure_non_token v

/-- The first validation loop of `Parser.validate_expression`: every key in
`args` must appear in `arg_types`. -/
def validate_unknown (lvl : ErrorLevel) (e : Expression) :
    List (String × Val) → PM Unit
  | [] => pure ()
  | (k, _) :: rest => do
    if !(arg_types e.kind).any (fun p => p.1 == k) then
      raise_error lvl (strcat ["Unexpected keyword: ", quoteStr k, " for ", class_name e.kind]) none
    validate_unknown lvl e rest

/-- Python's `v is None or v == []` in `validate_expression`. -/
def is_empty_value (v : Val) : Bool :=
  match v with
  | .vnone => true
  | .vlist [] => true
  | _ => false

/-- The second validation loop of `Parser.validate_expression`: every
mandatory slot must hold a non-empty value (`v is None or v == []`). -/
def validate_required (lvl : ErrorLevel) (e : Expression) :
    List (String × Bool) → PM Unit
  | [] => pure ()
  | (k, mandatory) :: rest => do
    let v := args_get e.args k
    if mandatory && is_empty_value v then
      raise_error lvl (strcat ["Required keyword: ", quoteStr k, " missing for ", class_name e.kind]) none
    validate_required lvl e rest

/-- `Parser.validate_expression`: skipped entirely under IGNORE, otherwise
the unknown-slot loop followed by the missing-mandatory-slot loop. -/
def validate_expression (lvl : ErrorLevel) (e : Expression) : PM Unit :=
  if lvl = ErrorLevel.IGNORE then pure ()
  else do
    validate_unknown lvl e e.args
    validate_required lvl e (arg_types e.kind)

/-- `Parser.expression(exp_class, **kwargs)`: normalize the keyword
arguments, build the node, validate it, return it. -/
def expressionM (lvl : ErrorLevel) (k : EKind) (kwargs : List (String × Val)) :
    PM Expression := do
  let kwargs := kwargs.map (fun p => (p.1, ensure_arg p.2))
  let inst := Expression.mk k kwargs
  validate_expression lvl inst
  pure inst

/-! ## Function registry -/

/-- Modelled from the spec: `from_arg_list` (missing `sqlglot/expressions.py`)
— "a registered builder is invoked with the parsed argument list"; the
positional arguments fill the node's slots in `arg_types` order. -/
def from_arg_list (k : EKind) (args : List Val) : Expression :=
  .mk k (((arg_types k).map Prod.fst).zip args)

/-- `Parser._parse_decimal`: build `exp.Decimal(precision=…, scale=…)` from
up to two positional arguments (this builder constructs the node directly,
without factory validation). -/
def parse_decimal (args : List Val) : Expression :=
  let size := args.length
  let precision := if size > 0 then args.getD 0 .vnone else .vnone
  let scale := if size > 1 then args.getD 1 .vnone else .vnone
  .mk .Decimal [("precision", precision), ("scale", scale)]

/-- `Parser.FUNCTIONS`.  Modelled from the spec: the registry is seeded
from the schema's function nodes (missing `sqlglot/expressions.py`) plus
the two `DECIMAL`/`NUMERIC` aliases defined in the parser itself; only the
seeded entry the claims exercise (`IF`, spec scenario 5) is included. -/
def FUNCTIONS : List (String × (List Val → Expression)) :=
  [("IF", from_arg_list .If), ("DECIMAL", parse_decimal), ("NUMERIC", parse_decimal)]

/-- `self.functions.get(name)`. -/
def functions_get (name : String) : Option (List Val → Expression) :=
  (FUNCTIONS.find? (fun p => p.1 == name)).map Prod.snd

/-! ## Non-recursive grammar routines -/

/-- `Parser._parse_id_var`: `self._match(*self.ID_VAR_TOKENS)`. -/
def parse_id_var : PM (Option Token) := pmatch ID_VAR_TOKENS

/-- `Parser._parse_exists(not_)`: the short-circuit chain
`self._match(IF) and (not not_ or self._match(NOT)) and self._match(EXISTS)`,
whose value is `None` or the consumed `EXISTS` token. -/
def parse_exists (not_ : Bool) : PM Val := do
  let i ← pmatch [TokenType.IF]
  if i.isNone then return Val.vnone
  if not_ then
    let n ← pmatch [TokenType.NOT]
    if n.isNone then return Val.vnone
  let e ← pmatch [TokenType.EXISTS]
  return optTok e

/-- `Parser._parse_alias(this)`: an optional `AS` followed by an optional
identifier; only a present identifier wraps `this` in an `Alias`. -/
def parse_alias (lvl : ErrorLevel) (this : Val) : PM Val := do
  let _ ← pmatch [TokenType.ALIAS]
  let aliasTok ← parse_id_var
  match aliasTok with
  | some a => Val.vexp <$> expressionM lvl .Alias [("this", this), ("alias", .vtok a)]
  | none => pure this

/-- The `while self._match(DOT)` loop of `Parser._parse_dot`. -/
def parse_dot (lvl : ErrorLevel) : Nat → Val → PM Val
  | 0, _ => throwFuel
  | fuel + 1, this => do
    let d ← pmatch [TokenType.DOT]
    if d.isNone then return this
    let idv ← parse_id_var
    let e ← expressionM lvl .Dot [("this", this), ("expression", optTok idv)]
    parse_dot lvl fuel (.vexp e)

/-- `Parser._parse_limit`. -/
def parse_limit (lvl : ErrorLevel) : PM Val := do
  let l ← pmatch [TokenType.LIMIT]
  if l.isNone then return Val.vnone
  let limit_number ← pmatch [TokenType.NUMBER]
  Val.vexp <$> expressionM lvl .Limit
    [("this", match limit_number with | some t => .vstr t.text | none => .vnone)]

/-- The `while self._match(COMMA)` loop of `Parser._parse_csv`: parse
another item after each comma, discarding `None` results. -/
def parse_csv_loop (p : PM Val) : Nat → List Val → PM (List Val)
  | 0, _ => throwFuel
  | fuel + 1, items => do
    let c ← pmatch [TokenType.COMMA]
    if c.isNone then return items
    let parse_result ← p
    let items :=
      match parse_result with
      | .vnone => items
      | r => items ++ [r]
    parse_csv_loop p fuel items

/-- `Parser._parse_csv(parse)`: one item, then the comma loop. -/
def parse_csv (p : PM Val) (fuel : Nat) : PM (List Val) := do
  let parse_result ← p
  let items :=
    match parse_result with
    | .vnone => []
    | r => [r]
  parse_csv_loop p fuel items

/-- The `while self._match(*expressions)` loop of `Parser._parse_tokens`:
the generic left-associative precedence loop over an operator table. -/
def parse_tokens_loop (lvl : ErrorLevel) (p : PM Val)
    (expressions : List (TokenType × EKind)) : Nat → Val → PM Val
  | 0, _ => throwFuel
  | fuel + 1, this => do
    let m ← pmatch (expressions.map Prod.fst)
    match m with
    | none => pure this
    | some op =>
      match (expressions.find? (fun pr => pr.1 == op.token_type)).map Prod.snd with
      | some k => do
        let r ← p
        let e ← expressionM lvl k [("this", this), ("expression", r)]
        parse_tokens_loop lvl p expressions fuel (.vexp e)
      | none => pure this

/-- `Parser._parse_tokens(parse, expressions)`. -/
def parse_tokens (lvl : ErrorLevel) (p : PM Val)
    (expressions : List (TokenType × EKind)) (fuel : Nat) : PM Val := do
  let this ← p
  parse_tokens_loop lvl p expressions fuel this

/-- The mutable `options` dict of `Parser._parse_create` (minus the
`parsed` control flag). -/
structure CreateOptions where
  engine : Val := .vnone
  auto_increment : Val := .vnone
  character_set : Val := .vnone
  collate : Val := .vnone
  comment : Val := .vnone

/-- The "loop until no option consumed" of `Parser._parse_create`: each
pass tries `ENGINE`, `AUTO_INCREMENT`, `COLLATE`, `COMMENT` and
`[DEFAULT] CHARACTER SET`, an option firing only when still unset
(`parse_option` consumes an optional `=` and records the value). -/
def create_options_loop (lvl : ErrorLevel) : Nat → CreateOptions → PM CreateOptions
  | 0, _ => throwFuel
  | fuel + 1, opts => do
    let (opts, parsed) ←
      if !truthy opts.engine then do
        let m ← pmatch [TokenType.ENGINE]
        if m.isSome then do
          let _ ← pmatch [TokenType.EQ]
          let v ← pmatch [TokenType.VAR]
          pure ({ opts with engine := optTok v }, true)
        else pure (opts, false)
      else pure (opts, false)
    let (opts, parsed) ←
      if !truthy opts.auto_increment then do
        let m ← pmatch [TokenType.AUTO_INCREMENT]
        if m.isSome then do
          let _ ← pmatch [TokenType.EQ]
          let v ← pmatch [TokenType.NUMBER]
          pure ({ opts with auto_increment := optTok v }, true)
        else pure (opts, parsed)
      else pure (opts, parsed)
    let (opts, parsed) ←
      if !truthy opts.collate then do
        let m ← pmatch [TokenType.COLLATE]
        if m.isSome then do
          let _ ← pmatch [TokenType.EQ]
          let v ← pmatch [TokenType.VAR]
          pure ({ opts with collate := optTok v }, true)
        else pure (opts, parsed)
      else pure (opts, parsed)
    let (opts, parsed) ←
      if !truthy opts.comment then do
        let m ← pmatch [TokenType.SCHEMA_COMMENT]
        if m.isSome then do
          let _ ← pmatch [TokenType.EQ]
          let v ← pmatch [TokenType.STRING]
          pure ({ opts with comment := optTok v }, true)
        else pure (opts, parsed)
      else pure (opts, parsed)
    let (opts, parsed) ←
      if !truthy opts.character_set then do
        let d ← pmatch [TokenType.DEFAULT]
        let m ← pmatch [TokenType.CHARACTER_SET]
        if m.isSome then do
          let _ ← pmatch [TokenType.EQ]
          let v ← pmatch [TokenType.VAR]
          let cs ← expressionM lvl .CharacterSet
            [("this", optTok v), ("default", .vbool d.isSome)]
          pure ({ opts with character_set := .vexp cs }, true)
        else pure (opts, parsed)
      else pure (opts, parsed)
    if parsed then create_options_loop lvl fuel opts else pure opts

/-- The mutable `options` dict of `Parser._parse_column_def`. -/
structure ColumnDefOptions where
  not_null : Val := .vnone
  auto_increment : Val := .vnone
  collate : Val := .vnone
  comment : Val := .vnone
  defaultVal : Val := .vnone

/-- The "loop until no option consumed" of `Parser._parse_column_def`:
each pass tries `AUTO_INCREMENT`, `COLLATE <var>`, `DEFAULT <primary>`,
`NOT NULL` and `COMMENT <string>`; an option fires while its stored value
is still falsy, and a pass that produced only falsy values ends the loop. -/
def column_def_options_loop (lvl : ErrorLevel) : Nat → ColumnDefOptions → PM ColumnDefOptions
  | 0, _ => throwFuel
  | fuel + 1, opts => do
    let (opts, parsed) ←
      if !truthy opts.auto_increment then do
        let m ← pmatch [TokenType.AUTO_INCREMENT]
        let v := Val.vbool m.isSome
        pure ({ opts with auto_increment := v }, truthy v)
      else pure (opts, false)
    let (opts, parsed) ←
      if !truthy opts.collate then do
        let m ← pmatch [TokenType.COLLATE]
        let v ←
          if m.isSome then optTok <$> pmatch [TokenType.VAR]
          else pure Val.vnone
        pure ({ opts with collate := v }, parsed || truthy v)
      else pure (opts, parsed)
    let (opts, parsed) ←
      if !truthy opts.defaultVal then do
        let m ← pmatch [TokenType.DEFAULT]
        let v ←
          if m.isSome then optTok <$> pmatch PRIMARY_TOKENS
          else pure Val.vnone
        pure ({ opts with defaultVal := v }, parsed || truthy v)
      else pure (opts, parsed)
    let (opts, parsed) ←
      if !truthy opts.not_null then do
        let m ← pmatch [TokenType.NOT]
        let v ←
          if m.isSome then (fun n => Val.vbool n.isSome) <$> pmatch [TokenType.NULL]
          else pure (Val.vbool false)
        pure ({ opts with not_null := v }, parsed || truthy v)
      else pure (opts, parsed)
    let (opts, parsed) ←
      if !truthy opts.comment then do
        let m ← pmatch [TokenType.SCHEMA_COMMENT]
        let v ←
          if m.isSome then optTok <$> pmatch [TokenType.STRING]
          else pure Val.vnone
        pure ({ opts with comment := v }, parsed || truthy v)
      else pure (opts, parsed)
    if parsed then column_def_options_loop lvl fuel opts else pure opts

/-- `self._parse_id_var` used where its result is treated as a value. -/
def parse_id_var_v : PM Val := optTok <$> parse_id_var

/-! ## The recursive-descent grammar driver

One Lean function per `Parser._parse_*` routine; Python `while` loops
become `_loop` companions.  The mutual recursion is bounded by a fuel
argument: every cross-call decrements it, and exhaustion is the
distinguished error `PErr.fuel` (never reached at the fuel the theorems
use). -/

mutual

/-- `Parser._parse_statement`. -/
def parse_statement (lvl : ErrorLevel) : Nat → PM Val
  | 0 => throwFuel
  | fuel + 1 => do
    let c ← getCurr
    if c.isNone then return Val.vnone
    if (← pmatch [TokenType.CREATE]).isSome then return (← parse_create lvl fuel)
    if (← pmatch [TokenType.DROP]).isSome then return (← parse_drop lvl fuel)
    if (← pmatch [TokenType.INSERT]).isSome then return (← parse_insert lvl fuel)
    if (← pmatch [TokenType.UPDATE]).isSome then return (← parse_update lvl fuel)
    let cte ← parse_cte lvl fuel
    if truthy cte then return cte
    parse_expression lvl fuel

/-- `Parser._parse_drop`.  When neither `TABLE` nor `VIEW` follows, the
local `kind` is never assigned; under a non-raising policy Python then
hits an `UnboundLocalError` when the keyword arguments are evaluated. -/
def parse_drop (lvl : ErrorLevel) : Nat → PM Val
  | 0 => throwFuel
  | fuel + 1 => do
    let kind ←
      if (← pmatch [TokenType.TABLE]).isSome then pure (some (Val.vstr "table"))
      else if (← pmatch [TokenType.VIEW]).isSome then pure (some (Val.vstr "view"))
      else do
        raise_error lvl "Expected TABLE or View" none
        pure none
    let exists_ ← parse_exists false
    let this ← parse_table lvl fuel none false
    match kind with
    | none => unboundLocal "kind"
    | some kv =>
      Val.vexp <$> expressionM lvl .Drop
        [("exists", exists_), ("this", this), ("kind", kv)]

/-- `Parser._parse_create`. -/
def parse_create (lvl : ErrorLevel) : Nat → PM Val
  | 0 => throwFuel
  | fuel + 1 => do
    let temporary := Val.vbool (← pmatch [TokenType.TEMPORARY]).isSome
    let o ← pmatch [TokenType.OR]
    let replace ←
      if o.isSome then do
        let r ← pmatch [TokenType.REPLACE]
        pure (Val.vbool r.isSome)
      else pure (Val.vbool false)
    let create_token ← pmatch [TokenType.TABLE, TokenType.VIEW]
    if create_token.isNone then raise_error lvl "Expected TABLE or View" none
    let exists_ ← parse_exists true
    let this ← parse_table lvl fuel none true
    match create_token with
    | none => attributeError "token_type"
    | some ct => do
      let file_format ←
        if ct.token_type = TokenType.TABLE then do
          let st ← pmatch [TokenType.STORED]
          if st.isSome then do
            let _ ← pmatch [TokenType.ALIAS]
            let idv ← parse_id_var
            let ff ← expressionM lvl .FileFormat [("this", optTok idv)]
            pure (Val.vexp ff)
          else do
            let w ← pmatch [TokenType.WITH]
            if w.isSome then do
              let _ ← pmatch [TokenType.L_PAREN]
              let _ ← pmatch [TokenType.FORMAT]
              let _ ← pmatch [TokenType.EQ]
              let p ← parse_primary lvl fuel
              let ff ← expressionM lvl .FileFormat [("this", p)]
              if (← pmatch [TokenType.R_PAREN]).isNone then
                raise_error lvl "Expected ) after format" none
              pure (Val.vexp ff)
            else pure Val.vnone
        else pure Val.vnone
      let expression ←
        if (← pmatch [TokenType.ALIAS]).isSome then parse_select lvl fuel
        else pure Val.vnone
      let opts ← create_options_loop lvl (fuel + 1) {}
      Val.vexp <$> expressionM lvl .Create
        [("this", this), ("kind", Val.vtok ct), ("expression", expression),
         ("exists", exists_), ("file_format", file_format),
         ("temporary", temporary), ("replace", replace),
         ("engine", opts.engine), ("auto_increment", opts.auto_increment),
         ("character_set", opts.character_set), ("collate", opts.collate),
         ("comment", opts.comment)]

/-- `Parser._parse_insert`. -/
def parse_insert (lvl : ErrorLevel) : Nat → PM Val
  | 0 => throwFuel
  | fuel + 1 => do
    let overwrite := Val.vbool (← pmatch [TokenType.OVERWRITE]).isSome
    let _ ← pmatch [TokenType.INTO]
    let _ ← pmatch [TokenType.TABLE]
    let this ← parse_table lvl fuel none false
    let exists_ ← parse_exists false
    let sel ← parse_select lvl fuel
    Val.vexp <$> expressionM lvl .Insert
      [("this", this), ("exists", .vbool (truthy exists_)),
       ("expression", sel), ("overwrite", overwrite)]

/-- `Parser._parse_update`. -/
def parse_update (lvl : ErrorLevel) : Nat → PM Val
  | 0 => throwFuel
  | fuel + 1 => do
    let this ← parse_table lvl fuel none false
    let expressions ← do
      let st ← pmatch [TokenType.SET]
      if st.isSome then Val.vlist <$> parse_csv (parse_equality lvl fuel) (fuel + 1)
      else pure Val.vnone
    let where_ ← parse_where lvl fuel
    Val.vexp <$> expressionM lvl .Update
      [("this", this), ("expressions", expressions), ("where", where_)]

/-- `Parser._parse_values`. -/
def parse_values (lvl : ErrorLevel) : Nat → PM Val
  | 0 => throwFuel
  | fuel + 1 => do
    if (← pmatch [TokenType.VALUES]).isNone then return Val.vnone
    let expressions ← parse_csv (parse_value lvl fuel) (fuel + 1)
    Val.vexp <$> expressionM lvl .Values [("expressions", .vlist expressions)]

/-- `Parser._parse_value`: a parenthesized tuple. -/
def parse_value (lvl : ErrorLevel) : Nat → PM Val
  | 0 => throwFuel
  | fuel + 1 => do
    if (← pmatch [TokenType.L_PAREN]).isNone then
      raise_error lvl "Expected ( for values" none
    let expressions ← parse_csv (parse_conjunction lvl fuel) (fuel + 1)
    if (← pmatch [TokenType.R_PAREN]).isNone then
      raise_error lvl "Expected ) for values" none
    Val.vexp <$> expressionM lvl .Tuple [("expressions", .vlist expressions)]

/-- `Parser._parse_cte`. -/
def parse_cte (lvl : ErrorLevel) : Nat → PM Val
  | 0 => throwFuel
  | fuel + 1 => do
    if (← pmatch [TokenType.WITH]).isNone then return (← parse_select lvl fuel)
    let (expressions, recursive) ← parse_cte_loop lvl fuel []
    let sel ← parse_select lvl fuel
    Val.vexp <$> expressionM lvl .CTE
      [("this", sel), ("expressions", .vlist expressions),
       ("recursive", .vbool recursive)]

/-- The `while True` alias loop of `Parser._parse_cte`; the returned flag
is the `recursive` match of the final iteration. -/
def parse_cte_loop (lvl : ErrorLevel) : Nat → List Val → PM (List Val × Bool)
  | 0, _ => throwFuel
  | fuel + 1, acc => do
    let recursive ← pmatch [TokenType.RECURSIVE]
    let idv ← pmatch [TokenType.IDENTIFIER, TokenType.VAR]
    let aliasV ← parse_function lvl fuel (optTok idv) false
    if !truthy aliasV then raise_error lvl "Expected alias after WITH" none
    if (← pmatch [TokenType.ALIAS]).isNone then
      raise_error lvl "Expected AS after WITH" none
    let tbl ← parse_table lvl fuel (some aliasV) false
    let acc := acc ++ [tbl]
    if (← pmatch [TokenType.COMMA]).isNone then pure (acc, recursive.isSome)
    else parse_cte_loop lvl fuel acc

/-- `Parser._parse_select`. -/
def parse_select (lvl : ErrorLevel) : Nat → PM Val
  | 0 => throwFuel
  | fuel + 1 => do
    let sel ← pmatch [TokenType.SELECT]
    let this ←
      if sel.isSome then do
        let hint ← parse_hint lvl fuel
        let distinct := Val.vbool (← pmatch [TokenType.DISTINCT]).isSome
        let expressions ← parse_csv (parse_expression lvl fuel) (fuel + 1)
        let from_ ← parse_from lvl fuel
        let laterals ← parse_laterals lvl fuel
        let joins ← parse_joins lvl fuel
        let where_ ← parse_where lvl fuel
        let group ← parse_group lvl fuel
        let having ← parse_having lvl fuel
        let order ← parse_order lvl fuel
        let limit ← parse_limit lvl
        Val.vexp <$> expressionM lvl .Select
          [("hint", hint), ("distinct", distinct),
           ("expressions", .vlist expressions), ("from", from_),
           ("laterals", .vlist laterals), ("joins", .vlist joins),
           ("where", where_), ("group", group), ("having", having),
           ("order", order), ("limit", limit)]
      else parse_values lvl fuel
    parse_union lvl fuel this

/-- `Parser._parse_hint`. -/
def parse_hint (lvl : ErrorLevel) : Nat → PM Val
  | 0 => throwFuel
  | fuel + 1 => do
    let h ← pmatch [TokenType.HINT]
    if h.isSome then do
      let hint ← parse_primary lvl fuel
      if (← pmatch [TokenType.COMMENT_END]).isNone then
        raise_error lvl "Expected */ after HINT" none
      Val.vexp <$> expressionM lvl .Hint [("this", hint)]
    else pure Val.vnone

/-- `Parser._parse_from`. -/
def parse_from (lvl : ErrorLevel) : Nat → PM Val
  | 0 => throwFuel
  | fuel + 1 => do
    if (← pmatch [TokenType.FROM]).isNone then return Val.vnone
    let expressions ← parse_csv (parse_table lvl fuel (some (.vbool false)) false) (fuel + 1)
    Val.vexp <$> expressionM lvl .From [("expressions", .vlist expressions)]

/-- `Parser._parse_laterals`. -/
def parse_laterals (lvl : ErrorLevel) : Nat → PM (List Val)
  | 0 => throwFuel
  | fuel + 1 => parse_laterals_loop lvl fuel [] none

/-- The `while True` loop of `Parser._parse_laterals`.  The function-scoped
local `columns` (third argument; `none` while still unassigned) is only
assigned when `AS` matches, yet it is read for every `Lateral` built:
reading it unassigned is Python's `UnboundLocalError`. -/
def parse_laterals_loop (lvl : ErrorLevel) : Nat → List Val → Option Val → PM (List Val)
  | 0, _, _ => throwFuel
  | fuel + 1, laterals, columnsVar => do
    if (← pmatch [TokenType.LATERAL]).isNone then return laterals
    if (← pmatch [TokenType.VIEW]).isNone then
      raise_error lvl "Expected VIEW afteral LATERAL" none
    let outer := Val.vbool (← pmatch [TokenType.OUTER]).isSome
    let this ← parse_primary lvl fuel
    let table ← parse_id_var
    let columnsVar ←
      if (← pmatch [TokenType.ALIAS]).isSome then do
        let cs ← parse_csv parse_id_var_v (fuel + 1)
        pure (some (Val.vlist cs))
      else pure columnsVar
    let tbl ← expressionM lvl .Table [("this", optTok table)]
    match columnsVar with
    | none => unboundLocal "columns"
    | some columns => do
      let lat ← expressionM lvl .Lateral
        [("this", this), ("outer", outer), ("table", .vexp tbl),
         ("columns", columns)]
      parse_laterals_loop lvl fuel (laterals ++ [.vexp lat]) columnsVar

/-- `Parser._parse_joins`. -/
def parse_joins (lvl : ErrorLevel) : Nat → PM (List Val)
  | 0 => throwFuel
  | fuel + 1 => parse_joins_loop lvl fuel []

/-- The `while True` loop of `Parser._parse_joins`. -/
def parse_joins_loop (lvl : ErrorLevel) : Nat → List Val → PM (List Val)
  | 0, _ => throwFuel
  | fuel + 1, joins => do
    let side ← pmatch [TokenType.LEFT, TokenType.RIGHT, TokenType.FULL]
    let kind ← pmatch [TokenType.INNER, TokenType.OUTER, TokenType.CROSS]
    if (← pmatch [TokenType.JOIN]).isNone then return joins
    let this ← parse_table lvl fuel (some (.vbool false)) false
    let on_ ←
      if (← pmatch [TokenType.ON]).isSome then parse_conjunction lvl fuel
      else pure Val.vnone
    let j ← expressionM lvl .Join
      [("this", this),
       ("side", match side with | some t => .vstr t.text | none => .vnone),
       ("kind", match kind with | some t => .vstr t.text | none => .vnone),
       ("on", on_)]
    parse_joins_loop lvl fuel (joins ++ [.vexp j])

/-- `Parser._parse_table(alias, schema)`.  The `alias` argument keeps its
three Python shapes: `none` for `None`, `some (vbool false)` for the
default `False`, and `some v` for an alias value. -/
def parse_table (lvl : ErrorLevel) : Nat → Option Val → Bool → PM Val
  | 0, _, _ => throwFuel
  | fuel + 1, aliasArg, schema => do
    let unnest ← parse_unnest lvl fuel
    if truthy unnest then return unnest
    let expression ←
      if (← pmatch [TokenType.L_PAREN]).isSome then do
        let e ← parse_cte lvl fuel
        if (← pmatch [TokenType.R_PAREN]).isNone then
          raise_error lvl "Expecting )" none
        pure e
      else do
        let m ← pmatch [TokenType.VAR, TokenType.IDENTIFIER]
        let table ← parse_function lvl fuel (optTok m) schema
        let (db, table) ←
          if (← pmatch [TokenType.DOT]).isSome then do
            let db := table
            if (← pmatch [TokenType.VAR, TokenType.IDENTIFIER]).isNone then
              raise_error lvl "Expected table name" none
            let p ← getPrev
            pure (db, optTok p)
          else pure (Val.vnone, table)
        Val.vexp <$> expressionM lvl .Table [("this", table), ("db", db)]
    let this ←
      match aliasArg with
      | none => pure expression
      | some av =>
        if truthy av then
          Val.vexp <$> expressionM lvl .Alias [("this", expression), ("alias", av)]
        else parse_alias lvl expression
    let isAliasOrTable :=
      match this with
      | .vexp e => e.kind == EKind.Alias || e.kind == EKind.Table
      | _ => false
    if isAliasOrTable then pure this
    else Val.vexp <$> expressionM lvl .Alias [("this", this), ("alias", Val.vnone)]

/-- `Parser._parse_unnest`. -/
def parse_unnest (lvl : ErrorLevel) : Nat → PM Val
  | 0 => throwFuel
  | fuel + 1 => do
    if (← pmatch [TokenType.UNNEST]).isNone then return Val.vnone
    if (← pmatch [TokenType.L_PAREN]).isNone then
      raise_error lvl "Expecting ( after unnest" none
    let expressions ← parse_csv parse_id_var_v (fuel + 1)
    if (← pmatch [TokenType.R_PAREN]).isNone then
      raise_error lvl "Expecting )" none
    let w ← pmatch [TokenType.WITH]
    let ordinality ←
      if w.isSome then optTok <$> pmatch [TokenType.ORDINALITY]
      else pure Val.vnone
    let _ ← pmatch [TokenType.ALIAS]
    let table ← parse_id_var
    if (← pmatch [TokenType.L_PAREN]).isNone then
      return (← Val.vexp <$> expressionM lvl .Unnest
        [("expressions", .vlist expressions), ("ordinality", ordinality),
         ("table", optTok table)])
    let columns ← parse_csv parse_id_var_v (fuel + 1)
    let unnest ← expressionM lvl .Unnest
      [("expressions", .vlist expressions),
       ("ordinality", .vbool (truthy ordinality)), ("table", optTok table),
       ("columns", .vlist columns)]
    if (← pmatch [TokenType.R_PAREN]).isNone then
      raise_error lvl "Expecting )" none
    pure (.vexp unnest)

/-- `Parser._parse_where`. -/
def parse_where (lvl : ErrorLevel) : Nat → PM Val
  | 0 => throwFuel
  | fuel + 1 => do
    if (← pmatch [TokenType.WHERE]).isNone then return Val.vnone
    let c ← parse_conjunction lvl fuel
    Val.vexp <$> expressionM lvl .Where [("this", c)]

/-- `Parser._parse_group`. -/
def parse_group (lvl : ErrorLevel) : Nat → PM Val
  | 0 => throwFuel
  | fuel + 1 => do
    if (← pmatch [TokenType.GROUP]).isNone then return Val.vnone
    let expressions ← parse_csv (parse_conjunction lvl fuel) (fuel + 1)
    Val.vexp <$> expressionM lvl .Group [("expressions", .vlist expressions)]

/-- `Parser._parse_having`. -/
def parse_having (lvl : ErrorLevel) : Nat → PM Val
  | 0 => throwFuel
  | fuel + 1 => do
    if (← pmatch [TokenType.HAVING]).isNone then return Val.vnone
    let c ← parse_conjunction lvl fuel
    Val.vexp <$> expressionM lvl .Having [("this", c)]

/-- `Parser._parse_order`. -/
def parse_order (lvl : ErrorLevel) : Nat → PM Val
  | 0 => throwFuel
  | fuel + 1 => do
    if (← pmatch [TokenType.ORDER]).isNone then return Val.vnone
    let expressions ← parse_csv (parse_ordered lvl fuel) (fuel + 1)
    Val.vexp <$> expressionM lvl .Order [("expressions", .vlist expressions)]

/-- `Parser._parse_ordered`: `ASC`/`DESC` defaulting to ascending. -/
def parse_ordered (lvl : ErrorLevel) : Nat → PM Val
  | 0 => throwFuel
  | fuel + 1 => do
    let this ← parse_bitwise lvl fuel
    let a ← pmatch [TokenType.ASC]
    let desc ←
      match a with
      | some t => pure (some t)
      | none => pmatch [TokenType.DESC]
    Val.vexp <$> expressionM lvl .Ordered
      [("this", this),
       ("desc", .vbool (match desc with
         | some t => t.token_type = TokenType.DESC
         | none => false))]

/-- `Parser._parse_union`. -/
def parse_union (lvl : ErrorLevel) : Nat → Val → PM Val
  | 0, _ => throwFuel
  | fuel + 1, this => do
    if (← pmatch [TokenType.UNION]).isNone then return this
    let distinct := Val.vbool (← pmatch [TokenType.ALL]).isNone
    let sel ← parse_select lvl fuel
    Val.vexp <$> expressionM lvl .Union
      [("this", this), ("expression", sel), ("distinct", distinct)]

/-- `Parser._parse_expression`: `alias(conjunction)`. -/
def parse_expression (lvl : ErrorLevel) : Nat → PM Val
  | 0 => throwFuel
  | fuel + 1 => do
    let c ← parse_conjunction lvl fuel
    parse_alias lvl c

/-- `Parser._parse_conjunction`. -/
def parse_conjunction (lvl : ErrorLevel) : Nat → PM Val
  | 0 => throwFuel
  | fuel + 1 => parse_tokens lvl (parse_equality lvl fuel) CONJUNCTION (fuel + 1)

/-- `Parser._parse_equality`. -/
def parse_equality (lvl : ErrorLevel) : Nat → PM Val
  | 0 => throwFuel
  | fuel + 1 => parse_tokens lvl (parse_comparison lvl fuel) EQUALITY (fuel + 1)

/-- `Parser._parse_comparison`. -/
def parse_comparison (lvl : ErrorLevel) : Nat → PM Val
  | 0 => throwFuel
  | fuel + 1 => parse_tokens lvl (parse_range lvl fuel) COMPARISON (fuel + 1)

/-- `Parser._parse_range`: `[NOT] LIKE | RLIKE | IN (…) | BETWEEN … AND …`. -/
def parse_range (lvl : ErrorLevel) : Nat → PM Val
  | 0 => throwFuel
  | fuel + 1 => do
    let this ← parse_bitwise lvl fuel
    let negate ← pmatch [TokenType.NOT]
    let this ←
      if (← pmatch [TokenType.LIKE]).isSome then do
        let t ← parse_term lvl fuel
        Val.vexp <$> expressionM lvl .Like [("this", this), ("expression", t)]
      else if (← pmatch [TokenType.RLIKE]).isSome then do
        let t ← parse_term lvl fuel
        Val.vexp <$> expressionM lvl .RegexLike [("this", this), ("expression", t)]
      else if (← pmatch [TokenType.IN]).isSome then do
        if (← pmatch [TokenType.L_PAREN]).isNone then do
          let p ← getPrev
          raise_error lvl "Expected ( after IN" p
        let query ← parse_select lvl fuel
        let inner ←
          if truthy query then
            Val.vexp <$> expressionM lvl .In [("this", this), ("query", query)]
          else do
            let expressions ← parse_csv (parse_term lvl fuel) (fuel + 1)
            Val.vexp <$> expressionM lvl .In
              [("this", this), ("expressions", .vlist expressions)]
        if (← pmatch [TokenType.R_PAREN]).isNone then
          raise_error lvl "Expected ) after IN" none
        pure inner
      else if (← pmatch [TokenType.BETWEEN]).isSome then do
        let low ← parse_term lvl fuel
        let _ ← pmatch [TokenType.AND]
        let high ← parse_term lvl fuel
        Val.vexp <$> expressionM lvl .Between
          [("this", this), ("low", low), ("high", high)]
      else pure this
    if negate.isSome then Val.vexp <$> expressionM lvl .Not [("this", this)]
    else pure this

/-- `Parser._parse_bitwise`. -/
def parse_bitwise (lvl : ErrorLevel) : Nat → PM Val
  | 0 => throwFuel
  | fuel + 1 => parse_tokens lvl (parse_term lvl fuel) BITWISE (fuel + 1)

/-- `Parser._parse_term`. -/
def parse_term (lvl : ErrorLevel) : Nat → PM Val
  | 0 => throwFuel
  | fuel + 1 => parse_tokens lvl (parse_factor lvl fuel) TERM (fuel + 1)

/-- `Parser._parse_factor`. -/
def parse_factor (lvl : ErrorLevel) : Nat → PM Val
  | 0 => throwFuel
  | fuel + 1 => parse_tokens lvl (parse_unary lvl fuel) FACTOR (fuel + 1)

/-- `Parser._parse_unary`. -/
def parse_unary (lvl : ErrorLevel) : Nat → PM Val
  | 0 => throwFuel
  | fuel + 1 => do
    if (← pmatch [TokenType.NOT]).isSome then do
      let u ← parse_unary lvl fuel
      Val.vexp <$> expressionM lvl .Not [("this", u)]
    else if (← pmatch [TokenType.TILDA]).isSome then do
      let u ← parse_unary lvl fuel
      Val.vexp <$> expressionM lvl .BitwiseNot [("this", u)]
    else if (← pmatch [TokenType.DASH]).isSome then do
      let u ← parse_unary lvl fuel
      Val.vexp <$> expressionM lvl .Neg [("this", u)]
    else parse_type lvl fuel

/-- `Parser._parse_type`: `INTERVAL`, a leading type (cast shorthand or
a bare type), `expr :: type`, or a column definition. -/
def parse_type (lvl : ErrorLevel) : Nat → PM Val
  | 0 => throwFuel
  | fuel + 1 => do
    if (← pmatch [TokenType.INTERVAL]).isSome then do
      let t ← pmatch [TokenType.STRING, TokenType.NUMBER]
      let u ← pmatch [TokenType.VAR]
      return (← Val.vexp <$> expressionM lvl .Interval
        [("this", optTok t), ("unit", optTok u)])
    let type_token ← parse_types lvl fuel
    let this ← parse_primary lvl fuel
    if truthy type_token then
      if truthy this then
        return (← Val.vexp <$> expressionM lvl .Cast
          [("this", this), ("to", type_token)])
      return type_token
    if (← pmatch [TokenType.DCOLON]).isSome then do
      let type_token ← parse_types lvl fuel
      if !truthy type_token then raise_error lvl "Expected type" none
      return (← Val.vexp <$> expressionM lvl .Cast
        [("this", this), ("to", type_token)])
    parse_column_def lvl fuel this

/-- `Parser._parse_types`: `none` when an ambiguous token is followed by
`(` or `[`; `TIMESTAMP`/`TIMESTAMPTZ [WITH|WITHOUT TIME ZONE]` collapses
to a fresh `TIMESTAMPTZ` token exactly when `WITH` is present and to a
fresh `TIMESTAMP` token otherwise; otherwise a matched type token is fed
through `_parse_function`.  The two fresh tokens are synthesized by
`Token(type, text)`; their line/column default to 1 (modelled from the
spec: positions are 1-based and the constructor's defaults are in the
missing `sqlglot/tokens.py`). -/
def parse_types (lvl : ErrorLevel) : Nat → PM Val
  | 0 => throwFuel
  | fuel + 1 => do
    let c ← getCurr
    let n ← getNext
    let ambiguous :=
      match c, n with
      | some ct, some nt =>
        AMBIGUOUS_TOKEN_TYPES.contains ct.token_type &&
          (nt.token_type = TokenType.L_PAREN || nt.token_type = TokenType.L_BRACKET)
      | _, _ => false
    if ambiguous then return Val.vnone
    let ts ← pmatch [TokenType.TIMESTAMP, TokenType.TIMESTAMPTZ]
    if ts.isSome then do
      let tz ← pmatch [TokenType.WITH]
      let _ ← pmatch [TokenType.WITHOUT]
      let _ ← pmatch [TokenType.TIME]
      let _ ← pmatch [TokenType.ZONE]
      if tz.isSome then
        return Val.vtok { token_type := .TIMESTAMPTZ, text := "TIMESTAMPTZ", line := 1, col := 1 }
      return Val.vtok { token_type := .TIMESTAMP, text := "TIMESTAMP", line := 1, col := 1 }
    let m ← pmatch TYPE_TOKENS
    parse_function lvl fuel (optTok m) false

/-- `Parser._parse_column_def`. -/
def parse_column_def (lvl : ErrorLevel) : Nat → Val → PM Val
  | 0, _ => throwFuel
  | fuel + 1, this => do
    let kind ← parse_types lvl fuel
    if !truthy kind then return this
    let opts ← column_def_options_loop lvl (fuel + 1) {}
    Val.vexp <$> expressionM lvl .ColumnDef
      [("this", this), ("kind", kind), ("not_null", opts.not_null),
       ("auto_increment", opts.auto_increment), ("collate", opts.collate),
       ("comment", opts.comment), ("default", opts.defaultVal)]

/-- `Parser._parse_primary`: a literal token, a parenthesized query or
conjunction, or a column. -/
def parse_primary (lvl : ErrorLevel) : Nat → PM Val
  | 0 => throwFuel
  | fuel + 1 => do
    let m ← pmatch PRIMARY_TOKENS
    match m with
    | some t => return Val.vtok t
    | none => do
      let lp ← pmatch [TokenType.L_PAREN]
      match lp with
      | some paren => do
        let sel ← parse_select lvl fuel
        let this ← if truthy sel then pure sel else parse_conjunction lvl fuel
        if (← pmatch [TokenType.R_PAREN]).isNone then
          raise_error lvl "Expecting )" (some paren)
        Val.vexp <$> expressionM lvl .Paren [("this", this)]
      | none => do
        let c ← getCurr
        if c.isNone then do
          raise_error lvl "Expecting expression" none
          return Val.vnone
        parse_column lvl fuel

/-- `Parser._parse_column`. -/
def parse_column (lvl : ErrorLevel) : Nat → PM Val
  | 0 => throwFuel
  | fuel + 1 => do
    let c ← getCurr
    match c with
    | none => attributeError "token_type"
    | some ct => do
      if NON_COLUMN_TOKENS.contains ct.token_type then return Val.vnone
      let _ ← pmatch [ct.token_type]
      let p ← getPrev
      let this ← parse_function lvl fuel (optTok p) false
      let (this, table, db, fields) ←
        parse_column_loop lvl fuel this Val.vnone Val.vnone Val.vnone
      let this ←
        match this with
        | .vtok t =>
          if COLUMN_TOKENS.contains t.token_type then do
            let (this2, table, db) :=
              if truthy fields then (Val.vnone, Val.vnone, Val.vnone)
              else (this, table, db)
            Val.vexp <$> expressionM lvl .Column
              [("this", this2), ("db", db), ("table", table), ("fields", fields)]
          else pure this
        | _ => pure this
      parse_brackets lvl fuel this

/-- The `while self._match(DOT)` loop of `Parser._parse_column`, threading
the mutated locals `(this, table, db, fields)`. -/
def parse_column_loop (lvl : ErrorLevel) : Nat → Val → Val → Val → Val → PM (Val × Val × Val × Val)
  | 0, _, _, _, _ => throwFuel
  | fuel + 1, this, table, db, fields => do
    let d ← pmatch [TokenType.DOT]
    if d.isNone then return (this, table, db, fields)
    if truthy db then do
      let fields := if truthy fields then fields else Val.vlist [db, table, this]
      let m ← pmatch COLUMN_TOKENS
      let fields :=
        match fields with
        | .vlist xs => Val.vlist (xs ++ [optTok m])
        | x => x
      parse_column_loop lvl fuel this table db fields
    else do
      let db := if truthy table then table else db
      let table := this
      let m ← pmatch COLUMN_TOKENS
      parse_column_loop lvl fuel (optTok m) table db fields

/-- `Parser._parse_function(this, schema)`: dedicated parsers for `CASE`,
`CAST`, `COUNT`, `EXTRACT`; otherwise the argument list is parsed and the
result is a `Schema` node (schema mode), a registered builder's node
(validated, then arity-checked), or an `Anonymous` fallback.  A non-token
`this` would hit Python's `AttributeError` on `this.token_type`. -/
def parse_function (lvl : ErrorLevel) : Nat → Val → Bool → PM Val
  | 0, _, _ => throwFuel
  | fuel + 1, this, schema => do
    if !truthy this then return this
    let t ←
      match this with
      | .vtok t => pure t
      | _ => attributeError "token_type"
    if t.token_type = TokenType.CASE then return (← parse_case lvl fuel)
    if (← pmatch [TokenType.L_PAREN]).isNone then return this
    let built ←
      if t.token_type = TokenType.CAST then parse_cast lvl fuel
      else if t.token_type = TokenType.COUNT then parse_count lvl fuel
      else if t.token_type = TokenType.EXTRACT then parse_extract lvl fuel
      else do
        let args ← parse_csv (parse_conjunction lvl fuel) (fuel + 1)
        let function := functions_get t.text.toUpper
        if schema then
          Val.vexp <$> expressionM lvl .Schema
            [("this", .vtok t), ("expressions", .vlist args)]
        else
          match function with
          | none =>
            Val.vexp <$> expressionM lvl .Anonymous
              [("this", .vstr t.text), ("expressions", .vlist args)]
          | some f => do
            let args := args.map ensure_non_token
            let node := f args
            validate_expression lvl node
            if args.length > (arg_types node.kind).length && !is_var_len_args node.kind then
              raise_error lvl
                (strcat ["The number of provided arguments (", toString args.length,
                 ") is greater than the maximum number of supported arguments (",
                 toString (arg_types node.kind).length, ")"]) none
            pure (Val.vexp node)
    if (← pmatch [TokenType.R_PAREN]).isNone then
      raise_error lvl "Expected )" none
    parse_window lvl fuel built

/-- `Parser._parse_case`. -/
def parse_case (lvl : ErrorLevel) : Nat → PM Val
  | 0 => throwFuel
  | fuel + 1 => do
    let expression ← parse_conjunction lvl fuel
    let ifs ← parse_case_whens lvl fuel []
    let defaultV ←
      if (← pmatch [TokenType.ELSE]).isSome then parse_conjunction lvl fuel
      else pure Val.vnone
    if (← pmatch [TokenType.END]).isNone then do
      let p ← getPrev
      raise_error lvl "Expected END after CASE" p
    let c ← expressionM lvl .Case
      [("this", expression), ("ifs", .vlist ifs), ("default", defaultV)]
    parse_brackets lvl fuel (.vexp c)

/-- The `while self._match(WHEN)` loop of `Parser._parse_case`. -/
def parse_case_whens (lvl : ErrorLevel) : Nat → List Val → PM (List Val)
  | 0, _ => throwFuel
  | fuel + 1, ifs => do
    if (← pmatch [TokenType.WHEN]).isNone then return ifs
    let this ← parse_conjunction lvl fuel
    let _ ← pmatch [TokenType.THEN]
    let then_ ← parse_conjunction lvl fuel
    let i ← expressionM lvl .If [("this", this), ("true", then_)]
    parse_case_whens lvl fuel (ifs ++ [.vexp i])

/-- `Parser._parse_count`. -/
def parse_count (lvl : ErrorLevel) : Nat → PM Val
  | 0 => throwFuel
  | fuel + 1 => do
    let d ← pmatch [TokenType.DISTINCT]
    let this ← parse_conjunction lvl fuel
    Val.vexp <$> expressionM lvl .Count [("distinct", optTok d), ("this", this)]

/-- `Parser._parse_extract`. -/
def parse_extract (lvl : ErrorLevel) : Nat → PM Val
  | 0 => throwFuel
  | fuel + 1 => do
    let this ← pmatch [TokenType.VAR]
    if (← pmatch [TokenType.FROM]).isNone then do
      let p ← getPrev
      raise_error lvl "Expected FROM after EXTRACT" p
    let e ← parse_type lvl fuel
    Val.vexp <$> expressionM lvl .Extract [("this", optTok this), ("expression", e)]

/-- `Parser._parse_cast` (the function form `CAST(expr AS type)`). -/
def parse_cast (lvl : ErrorLevel) : Nat → PM Val
  | 0 => throwFuel
  | fuel + 1 => do
    let this ← parse_conjunction lvl fuel
    if (← pmatch [TokenType.ALIAS]).isNone then
      raise_error lvl "Expected AS after CAST" none
    if (← pmatch TYPE_TOKENS).isNone then
      raise_error lvl "Expected TYPE after CAST" none
    let p ← getPrev
    let b ← parse_brackets lvl fuel (optTok p)
    let to_ ← parse_function lvl fuel b false
    Val.vexp <$> expressionM lvl .Cast [("this", this), ("to", to_)]

/-- `Parser._parse_window`. -/
def parse_window (lvl : ErrorLevel) : Nat → Val → PM Val
  | 0, _ => throwFuel
  | fuel + 1, this => do
    if (← pmatch [TokenType.OVER]).isNone then return this
    if (← pmatch [TokenType.L_PAREN]).isNone then
      raise_error lvl "Expecting ( after OVER" none
    let partition ←
      if (← pmatch [TokenType.PARTITION]).isSome then
        Val.vlist <$> parse_csv (parse_type lvl fuel) (fuel + 1)
      else pure Val.vnone
    let order ← parse_order lvl fuel
    let kind ← pmatch [TokenType.ROWS, TokenType.RANGE]
    let spec ←
      match kind with
      | some kt => do
        let _ ← pmatch [TokenType.BETWEEN]
        let start ← parse_window_spec lvl fuel
        let _ ← pmatch [TokenType.AND]
        let end_ ← parse_window_spec lvl fuel
        let ws ← expressionM lvl .WindowSpec
          [("kind", .vtok kt), ("start", start.1), ("start_side", start.2),
           ("end", end_.1), ("end_side", end_.2)]
        pure (Val.vexp ws)
      | none => pure Val.vnone
    if (← pmatch [TokenType.R_PAREN]).isNone then
      raise_error lvl "Expecting )" none
    Val.vexp <$> expressionM lvl .Window
      [("this", this), ("partition", partition), ("order", order), ("spec", spec)]

/-- `Parser._parse_window_spec`: the `value`/`side` pair of a frame bound. -/
def parse_window_spec (lvl : ErrorLevel) : Nat → PM (Val × Val)
  | 0 => throwFuel
  | fuel + 1 => do
    let _ ← pmatch [TokenType.BETWEEN]
    let v ← pmatch [TokenType.UNBOUNDED, TokenType.CURRENT_ROW]
    let value ←
      match v with
      | some t => pure (Val.vtok t)
      | none => parse_bitwise lvl fuel
    let side ← pmatch [TokenType.PRECEDING, TokenType.FOLLOWING]
    pure (value, optTok side)

/-- `Parser._parse_brackets`: `x[…]` yields `Bracket`, except that an
`ARRAY` token yields the `Array` literal constructor. -/
def parse_brackets (lvl : ErrorLevel) : Nat → Val → PM Val
  | 0, _ => throwFuel
  | fuel + 1, this => do
    if (← pmatch [TokenType.L_BRACKET]).isNone then return this
    let expressions ← parse_csv (parse_conjunction lvl fuel) (fuel + 1)
    let isArrayTok :=
      match this with
      | .vtok t => t.token_type == TokenType.ARRAY
      | _ => false
    let bracket ←
      if isArrayTok then
        Val.vexp <$> expressionM lvl .Array [("expressions", .vlist expressions)]
      else
        Val.vexp <$> expressionM lvl .Bracket
          [("this", this), ("expressions", .vlist expressions)]
    if (← pmatch [TokenType.R_BRACKET]).isNone then
      raise_error lvl "Expected ]" none
    let d ← parse_dot lvl (fuel + 1) bracket
    parse_brackets lvl fuel d

end

/-! ## `Parser.parse`: chunking and the per-statement loop -/

/-- Append a token to the last chunk (`self._chunks[-1].append(token)`). -/
def append_last (chunks : List (List Token)) (t : Token) : List (List Token) :=
  match chunks with
  | [] => [[t]]
  | [c] => [c ++ [t]]
  | c :: rest => c :: append_last rest t

/-- The chunking loop of `Parser.parse`: a `SEMICOLON` opens a new chunk
unless it is the final token; any other token joins the current chunk. -/
def chunks_go (total : Nat) : List Token → Nat → List (List Token) → List (List Token)
  | [], _, chunks => chunks
  | t :: rest, i, chunks =>
    if t.token_type = TokenType.SEMICOLON then
      if i < total - 1 then chunks_go total rest (i + 1) (chunks ++ [[]])
      else chunks_go total rest (i + 1) chunks
    else chunks_go total rest (i + 1) (append_last chunks t)

/-- The chunk list `parse` builds from the raw tokens (starting from the
single empty chunk `reset` installs). -/
def make_chunks (raw_tokens : List Token) : List (List Token) :=
  chunks_go raw_tokens.length raw_tokens 0 [[]]

/-- One iteration of the statement loop of `Parser.parse`: install the
chunk, set the cursor to -1 and advance once, parse a statement, coerce a
leftover token result, and diagnose trailing unconsumed tokens. -/
def parse_chunk (lvl : ErrorLevel) (fuel : Nat) (chunk : List Token)
    (base : PState) : Except PErr (Val × PState) :=
  let s0 := advanceState { base with tokens := chunk, index := -1 }
  match (parse_statement lvl fuel).run s0 with
  | .error e => .error e
  | .ok (v, s1) =>
    let v := ensure_non_token v
    if s1.index < (s1.tokens.length : Int) then
      match (raise_error lvl "Invalid expression / Unexpected token" none).run s1 with
      | .error e => .error e
      | .ok (_, s2) => .ok (v, s2)
    else .ok (v, s1)

/-- The statement loop of `Parser.parse`: one appended result per chunk. -/
def parse_loop (lvl : ErrorLevel) (fuel : Nat) :
    List (List Token) → PState → Except PErr (List Val × PState)
  | [], s => .ok ([], s)
  | c :: rest, s =>
    match parse_chunk lvl fuel c s with
    | .error e => .error e
    | .ok (v, s') =>
      match parse_loop lvl fuel rest s' with
      | .error e => .error e
      | .ok (vs, s'') => .ok (v :: vs, s'')

/-- `Parser.parse(raw_tokens, code)`: reset, chunk, parse one statement per
chunk, and return the statement list.  The `parent`/`arg_key` post-pass
mutates back-references only; it is modelled by `walk` below and does not
change the returned trees. -/
def parse (lvl : ErrorLevel) (fuel : Nat) (raw_tokens : List Token)
    (code : String) : Except PErr (List Val) :=
  match parse_loop lvl fuel (make_chunks raw_tokens)
      { tokens := [], index := 0, code := code, error := none, logged := [] } with
  | .error e => .error e
  | .ok (vs, _) => .ok vs

/-! ## The parent-wiring post-pass -/

/-- The children a node holds directly: for every slot `(k, v)` of the
holder, the node `v` itself or the nodes inside the list `v`, each paired
with the holder and the slot name (slot values are nodes, primitives, or
lists of nodes — spec section 3). -/
def children_of (e : Expression) : List (Expression × Option (Expression × String)) :=
  (e.args.map (fun kv =>
    match kv.2 with
    | .vexp c => [(c, some (e, kv.1))]
    | .vlist xs =>
      xs.filterMap (fun x =>
        match x with
        | .vexp c => some (c, some (e, kv.1))
        | _ => none)
    | _ => [])).flatten

/-- Depth-first traversal of a worklist of (node, holder-and-slot) pairs,
bounded by fuel. -/
def walk_go : Nat → List (Expression × Option (Expression × String)) →
    List (Expression × Option (Expression × String))
  | 0, _ => []
  | _, [] => []
  | fuel + 1, (e, par) :: rest => (e, par) :: walk_go fuel (children_of e ++ rest)

/-- Modelled from the spec: `Expression.walk` (missing
`sqlglot/expressions.py`) visits every node of a tree once, yielding the
node together with the holder and slot through which it was reached
(`none` for the root); the post-pass of `parse` copies exactly that pair
into each visited node's `parent`/`arg_key` (spec section 4.E, "Parent
wiring post-pass"). -/
def walkExpr (fuel : Nat) (e : Expression) :
    List (Expression × Option (Expression × String)) :=
  walk_go fuel [(e, none)]

/-! ## Helpers for stating and proving the claims -/

/-- A concrete input token (the claims' inputs all sit on line 1, col 1;
positions only matter for error rendering). -/
def tok (ty : TokenType) (text : String) : Token :=
  { token_type := ty, text := text, line := 1, col := 1 }

/-- The state of a freshly constructed `Parser()` (i.e. after `reset`). -/
def fresh_state : PState :=
  { tokens := [], index := 0, code := "", error := none, logged := [] }

/-- Does the second list start the first? -/
def prefix_at : List Char → List Char → Bool
  | [], _ => true
  | _ :: _, [] => false
  | a :: as, b :: bs => a == b && prefix_at as bs

/-- Does the first list occur inside the second? -/
def infix_from : List Char → List Char → Bool
  | sub, [] => sub.isEmpty
  | sub, c :: rest => prefix_at sub (c :: rest) || infix_from sub rest

/-- Computable substring test, used to state "the message contains …". -/
def contains_substr (s sub : String) : Bool := infix_from sub.data s.data

/-- Follows the claim's words (not the code): split a token list into
semicolon-separated statements. -/
def split_on_semicolon : List Token → List (List Token)
  | [] => [[]]
  | t :: rest =>
    if t.token_type = TokenType.SEMICOLON then [] :: split_on_semicolon rest
    else
      match split_on_semicolon rest with
      | [] => [[t]]
      | c :: cs => (t :: c) :: cs

/-- Follows the claim's words (not the code): the number of non-empty
semicolon-separated statements in a token list. -/
def spec_nonempty_statement_count (toks : List Token) : Nat :=
  ((split_on_semicolon toks).filter (fun c => !c.isEmpty)).length

/-! ## Concrete inputs and result projections used by the claims -/

/-- The tokens of `a ; ; b`: two statements separated by SEMICOLON tokens
with one empty statement in between. -/
def c2_tokens : List Token :=
  [tok .VAR "a", tok .SEMICOLON ";", tok .SEMICOLON ";", tok .VAR "b"]

/-- The single statement `a` as `parse` returns it. -/
def c2w_es : List Val :=
  [.vexp (.mk .Column
    [("this", .vexp (.mk .Identifier [("this", .vstr "a"), ("quoted", .vbool false)])),
     ("db", .vnone), ("table", .vnone), ("fields", .vnone)])]

/-- Node `n` is held by `p` through slot `k`: the slot is present in
`p.args` and `n` appears in its value directly or inside a list. -/
def holds_in (p : Expression) (k : String) (n : Expression) : Prop :=
  ∃ v, (k, v) ∈ p.args ∧ (v = .vexp n ∨ ∃ xs, v = .vlist xs ∧ Val.vexp n ∈ xs)

/-- The `Column` node `parse` returns for the statement `a`, and its
`Identifier` child. -/
def c3w_ident : Expression :=
  .mk .Identifier [("this", .vstr "a"), ("quoted", .vbool false)]

def c3w_column : Expression :=
  .mk .Column
    [("this", .vexp c3w_ident), ("db", .vnone), ("table", .vnone), ("fields", .vnone)]

/-- The tokens of `SELECT x FROM t WHERE a BETWEEN 1 AND 2 AND b IN (1,2,3)`. -/
def c4_tokens : List Token :=
  [tok .SELECT "SELECT", tok .VAR "x", tok .FROM "FROM", tok .VAR "t",
   tok .WHERE "WHERE", tok .VAR "a", tok .BETWEEN "BETWEEN", tok .NUMBER "1",
   tok .AND "AND", tok .NUMBER "2", tok .AND "AND", tok .VAR "b", tok .IN "IN",
   tok .L_PAREN "(", tok .NUMBER "1", tok .COMMA ",", tok .NUMBER "2",
   tok .COMMA ",", tok .NUMBER "3", tok .R_PAREN ")"]

/-- An unqualified column reference, as `_parse_column` builds it. -/
def c4_col (name : String) : Expression :=
  .mk .Column
    [("this", .vexp (.mk .Identifier [("this", .vstr name), ("quoted", .vbool false)])),
     ("db", .vnone), ("table", .vnone), ("fields", .vnone)]

/-- The `WHERE` predicate of the C4 statement:
`And(Between(a, 1, 2), In(b, [1, 2, 3]))`. -/
def c4_where_pred : Expression :=
  .mk .And
    [("this", .vexp (.mk .Between
        [("this", .vexp (c4_col "a")),
         ("low", .vexp (Literal.number "1")),
         ("high", .vexp (Literal.number "2"))])),
     ("expression", .vexp (.mk .In
        [("this", .vexp (c4_col "b")),
         ("expressions", .vlist
           [.vexp (Literal.number "1"), .vexp (Literal.number "2"),
            .vexp (Literal.number "3")])]))]

/-- The full statement tree `parse` returns for the C4 input. -/
def c4_select : Expression :=
  .mk .Select
    [("hint", .vnone), ("distinct", .vbool false),
     ("expressions", .vlist [.vexp (c4_col "x")]),
     ("from", .vexp (.mk .From
        [("expressions", .vlist
          [.vexp (.mk .Table
            [("this", .vexp (.mk .Identifier
                [("this", .vstr "t"), ("quoted", .vbool false)])),
             ("db", .vnone)])])])),
     ("laterals", .vlist []), ("joins", .vlist []),
     ("where", .vexp (.mk .Where [("this", .vexp c4_where_pred)])),
     ("group", .vnone), ("having", .vnone), ("order", .vnone), ("limit", .vnone)]

/-- The tokens of `IF(a > 0, a, b, c)`. -/
def c5_arity_tokens : List Token :=
  [tok .IF "IF", tok .L_PAREN "(", tok .VAR "a", tok .GT ">", tok .NUMBER "0",
   tok .COMMA ",", tok .VAR "a", tok .COMMA ",", tok .VAR "b", tok .COMMA ",",
   tok .VAR "c", tok .R_PAREN ")"]

/-- The tokens of `IF(a > 0)`. -/
def c5_missing_tokens : List Token :=
  [tok .IF "IF", tok .L_PAREN "(", tok .VAR "a", tok .GT ">", tok .NUMBER "0",
   tok .R_PAREN ")"]

/-- Did a run end in a raised `ParseError` whose message contains the
given text? -/
def raised_with (r : Except PErr (List Val)) (sub : String) : Bool :=
  match r with
  | .error (.parseError m) => contains_substr m sub
  | _ => false

/-- Did a run return Python `None`? -/
def returned_none (r : Except PErr (Val × PState)) : Bool :=
  match r with
  | .ok (.vnone, _) => true
  | _ => false

/-- The node kind a run returned, if it returned an expression. -/
def returned_kind (r : Except PErr (Val × PState)) : Option EKind :=
  match r with
  | .ok (.vexp (.mk k _), _) => some k
  | _ => none

/-- The cursor index a successful run ended at. -/
def returned_index (r : Except PErr (Val × PState)) : Option Int :=
  match r with
  | .ok (_, s) => some s.index
  | .error _ => none

/-- The state used to refute C7: the cursor sits on `INT` and the next
token is `(`. -/
def c7_state : PState :=
  { tokens := [tok .INT "INT", tok .L_PAREN "(", tok .R_PAREN ")"],
    index := 0, code := "", error := none, logged := [] }

/-- The state for the C7 witness: the cursor sits on `ARRAY` and the next
token is `[`. -/
def c7w_state : PState :=
  { tokens := [tok .ARRAY "ARRAY", tok .L_BRACKET "[", tok .NUMBER "1",
     tok .R_BRACKET "]"],
    index := 0, code := "", error := none, logged := [] }

/-- A one-token state for exercising `_match`. -/
def c8w_state : PState :=
  { tokens := [tok .VAR "a"], index := 0, code := "", error := none, logged := [] }

/-- The state `TIMESTAMP WITH TIME ZONE`. -/
def c9w_tz_state : PState :=
  { tokens := [tok .TIMESTAMP "TIMESTAMP", tok .WITH "WITH", tok .TIME "TIME",
     tok .ZONE "ZONE"],
    index := 0, code := "", error := none, logged := [] }

/-- The state `TIMESTAMPTZ x` (no `WITH` follows). -/
def c9w_plain_state : PState :=
  { tokens := [tok .TIMESTAMPTZ "TIMESTAMPTZ", tok .VAR "x"],
    index := 0, code := "", error := none, logged := [] }

/-- The state used to demonstrate C10: `LATERAL VIEW 1 t` with no `AS`. -/
def c10_state : PState :=
  { tokens := [tok .LATERAL "LATERAL", tok .VIEW "VIEW", tok .NUMBER "1",
     tok .VAR "t"],
    index := 0, code := "", error := none, logged := [] }

/-- The same clause with `AS c`, on which the very same read succeeds. -/
def c10_as_state : PState :=
  { tokens := [tok .LATERAL "LATERAL", tok .VIEW "VIEW", tok .NUMBER "1",
     tok .VAR "t", tok .ALIAS "AS", tok .VAR "c"],
    index := 0, code := "", error := none, logged := [] }

theorem run_bind (m : PM α) (f : α → PM β) (s : PState) :
    (m >>= f).run s =
      match m.run s with
      | .error e => .error e
      | .ok (a, s1) => (f a).run s1 := rfl

theorem run_pure (a : α) (s : PState) : (pure a : PM α).run s = .ok (a, s) := rfl

theorem run_bind_ok {m : PM α} {f : α → PM β} {s : PState} {b : β} {s'' : PState}
    (h : (m >>= f).run s = .ok (b, s'')) :
    ∃ a s1, m.run s = .ok (a, s1) ∧ (f a).run s1 = .ok (b, s'') := by
  rw [run_bind] at h
  cases hm : m.run s with
  | error e => rw [hm] at h; cases h
  | ok p =>
    obtain ⟨a, s1⟩ := p
    rw [hm] at h
    exact ⟨a, s1, rfl, h⟩

theorem raise_error_RAISE_err (msg : String) (t : Option Token) (s : PState) :
    ∀ u s', (raise_error .RAISE msg t).run s ≠ .ok (u, s') := by
  intro u s' h
  simp [raise_error, PM.run, raise_error_core] at h

/-- A successful `_match` of the current token: the cursor advances by
exactly one and the consumed token is returned. -/
theorem pmatch_hit {types : List TokenType} {s : PState} {t : Token}
    (hc : s.curr = some t) (ht : t.token_type ∈ types) :
    (pmatch types).run s = .ok (some t, advanceState s) := by
  have hidx : 0 ≤ s.index ∧ s.index < (s.tokens.length : Int) := by
    by_contra hcon
    unfold PState.curr list_get at hc
    rw [if_neg hcon] at hc
    cases hc
  have hprev : (advanceState s).prev = some t := by
    unfold PState.prev advanceState
    have h1 : s.index + 1 > 0 := by omega
    rw [if_pos h1]
    simpa [list_get, PState.curr, add_sub_cancel_right] using hc
  have hcont : types.contains t.token_type = true := by simpa using ht
  simp only [pmatch, PM.run]
  rw [hc]
  simp only [hcont, if_true, hprev]

/-- A failed `_match`: the state (hence cursor, current, next and previous
tokens) is unchanged and `None` is returned. -/
theorem pmatch_miss {types : List TokenType} {s : PState}
    (h : match s.curr with
         | none => True
         | some t => t.token_type ∉ types) :
    (pmatch types).run s = .ok (none, s) := by
  simp only [pmatch, PM.run]
  cases hc : s.curr with
  | none => simp
  | some t =>
    rw [hc] at h
    have hcont : types.contains t.token_type = false := by simpa using h
    simp [hcont]
    exact fun hmem => absurd hmem h

/-- `_match` always returns (it never raises). -/
theorem pmatch_total (types : List TokenType) (s : PState) :
    ∃ r s', (pmatch types).run s = .ok (r, s') := by
  simp only [pmatch, PM.run]
  cases hc : s.curr with
  | none => exact ⟨none, s, rfl⟩
  | some t =>
    simp only []
    split
    · exact ⟨_, _, rfl⟩
    · exact ⟨none, s, rfl⟩

theorem parse_loop_length (lvl : ErrorLevel) (fuel : Nat) :
    ∀ (cs : List (List Token)) (s : PState) (vs : List Val) (s' : PState),
      parse_loop lvl fuel cs s = .ok (vs, s') → vs.length = cs.length := by
  intro cs
  induction cs with
  | nil =>
    intro s vs s' h
    simp only [parse_loop] at h
    injection h with h
    injection h with h1 h2
    rw [← h1]
    rfl
  | cons c rest ih =>
    intro s vs s' h
    simp only [parse_loop] at h
    cases hc : parse_chunk lvl fuel c s with
    | error e => rw [hc] at h; cases h
    | ok p =>
      obtain ⟨v, s1⟩ := p
      rw [hc] at h
      simp only [] at h
      cases hl : parse_loop lvl fuel rest s1 with
      | error e => rw [hl] at h; cases h
      | ok q =>
        obtain ⟨vs2, s2⟩ := q
        rw [hl] at h
        simp only [] at h
        injection h with h
        injection h with hv hs
        rw [← hv]
        simp [ih s1 vs2 s2 hl]

/-! ## The claims -/

/-- C1: Node construction via `expression()` obeys the configured error
policy.  With policy IGNORE, `expression(Hint)`, `expression(Hint, this="")`
and `expression(Hint, y="")` all succeed.  With policy RAISE,
`expression(Hint, this="")` succeeds while `expression(Hint)` and
`expression(Hint, y="")` raise a ParseError.  With policy WARN, both
invalid constructions succeed and emit log messages containing
`Required keyword: 'this' missing` and `Unexpected keyword: 'y'`
respectively, each with `Line 1, Col: 1.`. -/
theorem C1_expression_error_policy :
    ((expressionM .IGNORE .Hint []).run fresh_state =
      .ok (.mk .Hint [], fresh_state)) ∧
    ((expressionM .IGNORE .Hint [("this", .vstr "")]).run fresh_state =
      .ok (.mk .Hint [("this", .vstr "")], fresh_state)) ∧
    ((expressionM .IGNORE .Hint [("y", .vstr "")]).run fresh_state =
      .ok (.mk .Hint [("y", .vstr "")], fresh_state)) ∧
    (∃ s, (expressionM .RAISE .Hint [("this", .vstr "")]).run fresh_state =
      .ok (.mk .Hint [("this", .vstr "")], s)) ∧
    (∃ m, (expressionM .RAISE .Hint []).run fresh_state =
      .error (.parseError m)) ∧
    (∃ m, (expressionM .RAISE .Hint [("y", .vstr "")]).run fresh_state =
      .error (.parseError m)) ∧
    (∃ e s, (expressionM .WARN .Hint []).run fresh_state = .ok (e, s) ∧
      ∃ m, m ∈ s.logged ∧
        contains_substr m (strcat ["Required keyword: ", quoteStr "this", " missing"]) = true ∧
        contains_substr m "Line 1, Col: 1." = true) ∧
    (∃ e s, (expressionM .WARN .Hint [("y", .vstr "")]).run fresh_state = .ok (e, s) ∧
      ∃ m, m ∈ s.logged ∧
        contains_substr m (strcat ["Unexpected keyword: ", quoteStr "y"]) = true ∧
        contains_substr m "Line 1, Col: 1." = true) := by
  refine ⟨rfl, rfl, rfl, ⟨_, rfl⟩, ⟨_, rfl⟩, ⟨_, rfl⟩, ?_, ?_⟩
  · exact ⟨_, _, rfl, _, List.Mem.head _, by rfl, by rfl⟩
  · exact ⟨_, _, rfl, _, List.Mem.head _, by rfl, by rfl⟩

/-- C2 counterexample: on `a ; ; b` the input has two non-empty
statements, but `parse` returns three entries — the empty middle statement
contributes a `None` entry, so the claimed equality
`len(parse(…)) == number of non-empty statements` fails. -/
theorem C2_counterexample :
    ∃ es, parse .RAISE 32 c2_tokens "" = .ok es ∧ es.length = 3 ∧
      spec_nonempty_statement_count c2_tokens = 2 :=
  ⟨_, rfl, rfl, rfl⟩

/-- C2 (amended): for every token list on which `parse` returns, the
length of the returned list equals the number of token chunks — one chunk
per SEMICOLON at a non-final position, plus one; every chunk contributes
exactly one entry (an empty chunk contributes a `None` entry), so only a
single trailing semicolon is dropped. -/
theorem C2_parse_length_eq_chunk_count (lvl : ErrorLevel) (fuel : Nat)
    (toks : List Token) (code : String) (es : List Val)
    (h : parse lvl fuel toks code = .ok es) :
    es.length = (make_chunks toks).length := by
  unfold parse at h
  cases hl : parse_loop lvl fuel (make_chunks toks)
      { tokens := [], index := 0, code := code, error := none, logged := [] } with
  | error e => rw [hl] at h; cases h
  | ok p =>
    obtain ⟨vs, sfin⟩ := p
    rw [hl] at h
    simp only [] at h
    injection h with h
    rw [← h]
    exact parse_loop_length lvl fuel (make_chunks toks) _ vs sfin hl

theorem C2_parse_length_eq_chunk_count_witness :
    c2w_es.length = (make_chunks [tok .VAR "a"]).length :=
  C2_parse_length_eq_chunk_count .RAISE 32 [tok .VAR "a"] "" c2w_es (by rfl)

theorem children_of_sound {e c : Expression} {p : Expression} {k : String}
    (h : (c, some (p, k)) ∈ children_of e) : p = e ∧ holds_in e k c := by
  unfold children_of at h
  rw [List.mem_flatten] at h
  obtain ⟨l, hl, hcl⟩ := h
  rw [List.mem_map] at hl
  obtain ⟨kv, hkv, hkvl⟩ := hl
  subst hkvl
  cases hv : kv.2 with
  | vexp c2 =>
    rw [hv] at hcl
    simp only [List.mem_singleton] at hcl
    injection hcl with hc1 hc2
    injection hc2 with hc2
    injection hc2 with hp hk
    subst hc1; subst hp; subst hk
    exact ⟨rfl, kv.2, by rw [Prod.mk.eta]; exact hkv, Or.inl hv⟩
  | vlist xs =>
    rw [hv] at hcl
    rw [List.mem_filterMap] at hcl
    obtain ⟨x, hx, hxc⟩ := hcl
    cases x with
    | vexp c2 =>
      simp only [Option.some.injEq] at hxc
      injection hxc with hc1 hc2
      injection hc2 with hc2
      injection hc2 with hp hk
      subst hc1; subst hp; subst hk
      exact ⟨rfl, kv.2, by rw [Prod.mk.eta]; exact hkv, Or.inr ⟨xs, hv, hx⟩⟩
    | vnone => cases hxc
    | vbool b => cases hxc
    | vstr s => cases hxc
    | vtok t => cases hxc
    | vlist ys => cases hxc
  | vnone => rw [hv] at hcl; cases hcl
  | vbool b => rw [hv] at hcl; cases hcl
  | vstr st => rw [hv] at hcl; cases hcl
  | vtok t => rw [hv] at hcl; cases hcl

theorem walk_go_sound (fuel : Nat) :
    ∀ (stack : List (Expression × Option (Expression × String))),
      (∀ x p k, (x, some (p, k)) ∈ stack → holds_in p k x) →
      ∀ n p k, (n, some (p, k)) ∈ walk_go fuel stack → holds_in p k n := by
  induction fuel with
  | zero =>
    intro stack hstack n p k hmem
    simp [walk_go] at hmem
  | succ fuel ih =>
    intro stack hstack n p k hmem
    match stack with
    | [] => simp [walk_go] at hmem
    | (e, par) :: rest =>
      rw [walk_go] at hmem
      rcases List.mem_cons.mp hmem with hhead | htail
      · injection hhead with h1 h2
        subst h1
        exact hstack n p k (by rw [h2]; exact List.Mem.head _)
      · refine ih (children_of e ++ rest) ?_ n p k htail
        intro x p' k' hx
        rcases List.mem_append.mp hx with hchild | hrest
        · obtain ⟨hpe, hh⟩ := children_of_sound hchild
          rw [hpe]
          exact hh
        · exact hstack x p' k' (List.Mem.tail _ hrest)

/-- C3: For every statement tree returned by a successful `parse` and
every node `n` in that tree other than the root, the post-pass assigns
`n.parent` and `n.arg_key` from the holder and slot `walk` reached `n`
through, and then `n.arg_key` is a key of `n.parent.args` and `n` appears
in `n.parent.args[n.arg_key]` either directly or inside a list. -/
theorem C3_parent_wiring (lvl : ErrorLevel) (fuel : Nat) (toks : List Token)
    (code : String) (es : List Val) (hparse : parse lvl fuel toks code = .ok es)
    (v : Val) (hv : v ∈ es) (e : Expression) (hev : v = .vexp e)
    (wf : Nat) (n p : Expression) (k : String)
    (hmem : (n, some (p, k)) ∈ walkExpr wf e) :
    ∃ val, (k, val) ∈ p.args ∧
      (val = .vexp n ∨ ∃ xs, val = .vlist xs ∧ Val.vexp n ∈ xs) := by
  refine walk_go_sound wf [(e, none)] ?_ n p k hmem
  intro x p' k' hx
  rcases List.mem_cons.mp hx with hh | hnil
  · injection hh with h1 h2
    cases h2
  · cases hnil

theorem C3_parent_wiring_witness :
    ∃ val, ("this", val) ∈ c3w_column.args ∧
      (val = .vexp c3w_ident ∨ ∃ xs, val = .vlist xs ∧ Val.vexp c3w_ident ∈ xs) :=
  C3_parent_wiring .RAISE 32 [tok .VAR "a"] "" [.vexp c3w_column] (by rfl)
    (.vexp c3w_column) (List.Mem.head _) c3w_column rfl
    4 c3w_ident c3w_column "this" (List.Mem.tail _ (List.Mem.head _))

/-- C4: Parsing `SELECT x FROM t WHERE a BETWEEN 1 AND 2 AND b IN (1,2,3)`
yields a WHERE clause whose expression is
`And(Between(a,1,2), In(b,[1,2,3]))`: `BETWEEN` consumes its interior
`AND (low AND high)` and `IN` its list before the conjunction loop sees
the outer `AND`, i.e. both bind tighter than `AND`. -/
theorem C4_between_in_precedence :
    parse .RAISE 64 c4_tokens "" = .ok [.vexp c4_select] ∧
    args_get c4_select.args "where" =
      .vexp (.mk .Where [("this", .vexp (.mk .And
        [("this", .vexp (.mk .Between
            [("this", .vexp (c4_col "a")),
             ("low", .vexp (Literal.number "1")),
             ("high", .vexp (Literal.number "2"))])),
         ("expression", .vexp (.mk .In
            [("this", .vexp (c4_col "b")),
             ("expressions", .vlist
               [.vexp (Literal.number "1"), .vexp (Literal.number "2"),
                .vexp (Literal.number "3")])]))]))]) :=
  ⟨by rfl, by rfl⟩

theorem c5_arity_raises :
    raised_with (parse .RAISE 26 c5_arity_tokens "")
      "The number of provided arguments (4) is greater than the maximum number of supported arguments (3)" = true := by
  decide!

theorem c5_missing_raises :
    raised_with (parse .RAISE 26 c5_missing_tokens "")
      (strcat ["Required keyword: ", quoteStr "true", " missing"]) = true := by
  decide!

/-- C5: Under policy RAISE, `IF(a > 0, a, b, c)` raises a function-arity
error — four parsed arguments against the `If` node's three `arg_types`
slots with no variable arity — and `IF(a > 0)` raises a
missing-mandatory-slot schema violation (`Required keyword: 'true'`). -/
theorem C5_if_arity_and_mandatory :
    raised_with (parse .RAISE 26 c5_arity_tokens "")
      "The number of provided arguments (4) is greater than the maximum number of supported arguments (3)" = true ∧
    (arg_types EKind.If).length = 3 ∧
    is_var_len_args EKind.If = false ∧
    raised_with (parse .RAISE 26 c5_missing_tokens "")
      (strcat ["Required keyword: ", quoteStr "true", " missing"]) = true :=
  ⟨c5_arity_raises, rfl, rfl, c5_missing_raises⟩

theorem is_empty_value_false {v : Val} (h : is_empty_value v = false) :
    ¬(v = Val.vnone ∨ v = Val.vlist []) := by
  intro hc
  rcases hc with hc | hc <;> subst hc <;> simp [is_empty_value] at h

theorem validate_required_ok (e : Expression) :
    ∀ (l : List (String × Bool)) (s : PState) (u : Unit) (s' : PState),
      (validate_required .RAISE e l).run s = .ok (u, s') →
      ∀ key, (key, true) ∈ l →
        ¬(args_get e.args key = Val.vnone ∨ args_get e.args key = Val.vlist []) := by
  intro l
  induction l with
  | nil =>
    intro s u s' h key hk
    cases hk
  | cons kv rest ih =>
    obtain ⟨k0, m0⟩ := kv
    intro s u s' h key hk
    simp only [validate_required] at h
    by_cases hcond : (m0 && is_empty_value (args_get e.args k0)) = true
    · rw [if_pos hcond] at h
      obtain ⟨a, s1, h1, h2⟩ := run_bind_ok h
      exact absurd h1 (raise_error_RAISE_err _ _ _ _ _)
    · rw [if_neg hcond] at h
      obtain ⟨a, s1, h1, h2⟩ := run_bind_ok h
      rcases List.mem_cons.mp hk with hh | ht
      · injection hh with hk1 hk2
        subst hk1
        subst hk2
        simp only [Bool.and_eq_true, not_and] at hcond
        exact is_empty_value_false (by simpa using hcond trivial)
      · exact ih s1 a s' h2 key ht

/-- C6 (amended): under policy RAISE — but not under WARN — when
`expression()` returns without raising, every slot marked mandatory in the
node's `arg_types` has a non-empty value in the node's `args` (`None` or
an empty list does not satisfy a mandatory slot). -/
theorem C6_mandatory_nonempty_under_raise (k : EKind) (kwargs : List (String × Val))
    (s : PState) (inst : Expression) (s' : PState)
    (h : (expressionM .RAISE k kwargs).run s = .ok (inst, s'))
    (key : String) (hk : (key, true) ∈ arg_types k) :
    ¬(args_get inst.args key = Val.vnone ∨ args_get inst.args key = Val.vlist []) := by
  simp only [expressionM] at h
  obtain ⟨u, s1, h1, h2⟩ := run_bind_ok h
  rw [run_pure] at h2
  injection h2 with h2
  injection h2 with h2a h2b
  simp only [validate_expression] at h1
  rw [if_neg (by decide : ¬(ErrorLevel.RAISE = ErrorLevel.IGNORE))] at h1
  obtain ⟨u2, s2, h3, h4⟩ := run_bind_ok h1
  rw [← h2a]
  exact validate_required_ok _ _ s2 u s1 h4 key (by simpa [Expression.kind] using hk)

theorem C6_mandatory_nonempty_under_raise_witness :
    ¬(args_get (Expression.mk .Hint [("this", .vstr "x")]).args "this" = Val.vnone ∨
      args_get (Expression.mk .Hint [("this", .vstr "x")]).args "this" = Val.vlist []) :=
  C6_mandatory_nonempty_under_raise .Hint [("this", .vstr "x")] fresh_state
    (.mk .Hint [("this", .vstr "x")]) fresh_state (by rfl) "this" (List.Mem.head _)

/-- C6 counterexample: WARN is a policy other than IGNORE, yet
`expression(Hint)` returns without raising while the mandatory slot `this`
is absent (`None`) in the returned node's `args`. -/
theorem C6_counterexample :
    (∃ s', (expressionM .WARN .Hint []).run fresh_state = .ok (.mk .Hint [], s')) ∧
    ErrorLevel.WARN ≠ ErrorLevel.IGNORE ∧
    ("this", true) ∈ arg_types EKind.Hint ∧
    args_get (Expression.mk .Hint []).args "this" = Val.vnone :=
  ⟨⟨_, rfl⟩, by decide, List.Mem.head _, rfl⟩

theorem run_readState (f : PState → α) (s : PState) :
    (readState f).run s = .ok (f s, s) := rfl

/-- C7 counterexample: `INT` is a type token followed by `(`, yet
`_parse_types` does not return none — the ambiguous set the code consults
is only `ARRAY, DATE, MAP`, so `INT` is matched as a type and then parsed
as a function-call form, producing an `Anonymous` node. -/
theorem C7_counterexample :
    TokenType.INT ∈ TYPE_TOKENS ∧
    TokenType.INT ∉ AMBIGUOUS_TOKEN_TYPES ∧
    c7_state.curr = some (tok .INT "INT") ∧
    c7_state.nxt = some (tok .L_PAREN "(") ∧
    returned_none ((parse_types .RAISE 32).run c7_state) = false ∧
    returned_kind ((parse_types .RAISE 32).run c7_state) = some EKind.Anonymous ∧
    returned_index ((parse_types .RAISE 32).run c7_state) = some 3 := by
  refine ⟨by decide, by decide, rfl, rfl, ?_, ?_, ?_⟩ <;> decide!

/-- C7 (amended): only for the code's ambiguous set `ARRAY, DATE, MAP`
does `_parse_types` return none when the next token is `(` or `[`, leaving
the cursor untouched and forcing the function/column parsing path. -/
theorem C7_ambiguous_token_types_yield_none (lvl : ErrorLevel) (fuel : Nat)
    (s : PState) (t n : Token) (hc : s.curr = some t)
    (ht : t.token_type ∈ AMBIGUOUS_TOKEN_TYPES) (hn : s.nxt = some n)
    (hp : n.token_type = TokenType.L_PAREN ∨ n.token_type = TokenType.L_BRACKET) :
    (parse_types lvl (fuel + 1)).run s = .ok (Val.vnone, s) := by
  simp only [parse_types, run_bind, getCurr, getNext, run_readState, hc, hn]
  rcases hp with hp | hp <;> simp [ht, hp, run_pure]

theorem C7_ambiguous_token_types_yield_none_witness :
    (parse_types .RAISE 1).run c7w_state = .ok (Val.vnone, c7w_state) :=
  C7_ambiguous_token_types_yield_none .RAISE 0 c7w_state
    (tok .ARRAY "ARRAY") (tok .L_BRACKET "[") rfl (by decide) rfl
    (Or.inr rfl)

/-- C8: Token consumption is strictly left-to-right with no backtracking:
a successful run of the statement parser (the whole work on one statement
chunk) never decreases the cursor index — the only index write in the
grammar routines is `_advance`'s increment — and `_match(k₁,…,kₙ)`
advances the cursor by exactly one position and returns the consumed token
when the current token's kind is among `k₁,…,kₙ`, and otherwise returns
none leaving the state — hence the cursor index and the current, next and
previous tokens — unchanged. -/
theorem C8_left_to_right_no_backtracking :
    (∀ (lvl : ErrorLevel) (fuel : Nat) (s : PState) (r : Val) (s' : PState),
      (parse_statement lvl fuel).run s = .ok (r, s') → s.index ≤ s'.index) ∧
    (∀ (types : List TokenType) (s : PState) (t : Token),
      s.curr = some t → t.token_type ∈ types →
      (pmatch types).run s = .ok (some t, advanceState s) ∧
        (advanceState s).index = s.index + 1) ∧
    (∀ (types : List TokenType) (s : PState),
      (match s.curr with
       | none => True
       | some t => t.token_type ∉ types) →
      (pmatch types).run s = .ok (none, s)) :=
  ⟨fun lvl fuel s r s' h => (parse_statement lvl fuel).property s r s' h,
   fun _ _ _ hc ht => ⟨pmatch_hit hc ht, rfl⟩,
   fun _ _ h => pmatch_miss h⟩

theorem C8_left_to_right_no_backtracking_witness :
    fresh_state.index ≤ fresh_state.index ∧
    ((pmatch [TokenType.VAR]).run c8w_state =
        .ok (some (tok .VAR "a"), advanceState c8w_state) ∧
      (advanceState c8w_state).index = c8w_state.index + 1) ∧
    (pmatch [TokenType.VAR]).run fresh_state = .ok (none, fresh_state) :=
  ⟨C8_left_to_right_no_backtracking.1 .RAISE 4 fresh_state .vnone fresh_state (by rfl),
   C8_left_to_right_no_backtracking.2.1 [TokenType.VAR] c8w_state (tok .VAR "a")
     rfl (List.Mem.head _),
   C8_left_to_right_no_backtracking.2.2 [TokenType.VAR] fresh_state trivial⟩

theorem advance_curr (s : PState) : (advanceState s).curr = s.nxt := rfl

/-- C9: In `_parse_types` the result kind for timestamp types depends only
on whether `WITH` follows: a `TIMESTAMP` token followed by `WITH`
(`TIME ZONE`) yields a `TIMESTAMPTZ` result, and any timestamp token
(`TIMESTAMP` or `TIMESTAMPTZ`) not followed by `WITH` yields a plain
`TIMESTAMP` token — a `TIMESTAMPTZ` input token without a following
`WITH` is downgraded to `TIMESTAMP`. -/
theorem C9_timestamp_with_collapse (lvl : ErrorLevel) (fuel : Nat) :
    (∀ (s : PState) (t w : Token), s.curr = some t →
      t.token_type = TokenType.TIMESTAMP → s.nxt = some w →
      w.token_type = TokenType.WITH →
      ∃ tk s', (parse_types lvl (fuel + 1)).run s = .ok (.vtok tk, s') ∧
        tk.token_type = TokenType.TIMESTAMPTZ) ∧
    (∀ (s : PState) (t : Token), s.curr = some t →
      (t.token_type = TokenType.TIMESTAMP ∨ t.token_type = TokenType.TIMESTAMPTZ) →
      (∀ w, s.nxt = some w → w.token_type ≠ TokenType.WITH) →
      ∃ tk s', (parse_types lvl (fuel + 1)).run s = .ok (.vtok tk, s') ∧
        tk.token_type = TokenType.TIMESTAMP) := by
  constructor
  · intro s t w hc ht hn hw
    have h1 : (pmatch [TokenType.TIMESTAMP, TokenType.TIMESTAMPTZ]).run s =
        .ok (some t, advanceState s) :=
      pmatch_hit hc (by rw [ht]; exact List.Mem.head _)
    have h2 : (pmatch [TokenType.WITH]).run (advanceState s) =
        .ok (some w, advanceState (advanceState s)) :=
      pmatch_hit (by rw [advance_curr]; exact hn) (by rw [hw]; exact List.Mem.head _)
    obtain ⟨r3, s3, h3⟩ := pmatch_total [TokenType.WITHOUT] (advanceState (advanceState s))
    obtain ⟨r4, s4, h4⟩ := pmatch_total [TokenType.TIME] s3
    obtain ⟨r5, s5, h5⟩ := pmatch_total [TokenType.ZONE] s4
    refine ⟨{ token_type := .TIMESTAMPTZ, text := "TIMESTAMPTZ", line := 1, col := 1 },
      s5, ?_, rfl⟩
    simp only [parse_types, run_bind, getCurr, getNext, run_readState, hc, hn]
    simp [AMBIGUOUS_TOKEN_TYPES, ht, h1, h2, h3, h4, h5, run_pure, run_bind,
      Option.isSome]
  · intro s t hc ht hnw
    have h1 : (pmatch [TokenType.TIMESTAMP, TokenType.TIMESTAMPTZ]).run s =
        .ok (some t, advanceState s) :=
      pmatch_hit hc (by rcases ht with h | h <;> rw [h] <;> simp)
    have h2 : (pmatch [TokenType.WITH]).run (advanceState s) =
        .ok (none, advanceState s) := by
      refine pmatch_miss ?_
      rw [advance_curr]
      cases hx : s.nxt with
      | none => trivial
      | some w =>
        have := hnw w hx
        simp [this]
    obtain ⟨r3, s3, h3⟩ := pmatch_total [TokenType.WITHOUT] (advanceState s)
    obtain ⟨r4, s4, h4⟩ := pmatch_total [TokenType.TIME] s3
    obtain ⟨r5, s5, h5⟩ := pmatch_total [TokenType.ZONE] s4
    refine ⟨{ token_type := .TIMESTAMP, text := "TIMESTAMP", line := 1, col := 1 },
      s5, ?_, rfl⟩
    cases hx : s.nxt with
    | none =>
      simp only [parse_types, run_bind, getCurr, getNext, run_readState, hc, hx]
      simp [h1, h2, h3, h4, h5, run_pure, run_bind, Option.isSome]
    | some w =>
      simp only [parse_types, run_bind, getCurr, getNext, run_readState, hc, hx]
      rcases ht with h | h <;>
        simp [AMBIGUOUS_TOKEN_TYPES, h, h1, h2, h3, h4, h5, run_pure, run_bind,
          Option.isSome]

theorem C9_timestamp_with_collapse_witness :
    (∃ tk s', (parse_types .RAISE (8 + 1)).run c9w_tz_state = .ok (.vtok tk, s') ∧
      tk.token_type = TokenType.TIMESTAMPTZ) ∧
    (∃ tk s', (parse_types .RAISE (8 + 1)).run c9w_plain_state = .ok (.vtok tk, s') ∧
      tk.token_type = TokenType.TIMESTAMP) :=
  ⟨(C9_timestamp_with_collapse .RAISE 8).1 c9w_tz_state
      (tok .TIMESTAMP "TIMESTAMP") (tok .WITH "WITH") rfl rfl rfl rfl,
   (C9_timestamp_with_collapse .RAISE 8).2 c9w_plain_state
      (tok .TIMESTAMPTZ "TIMESTAMPTZ") rfl (Or.inr rfl)
      (fun w hw => by
        injection hw with hw
        rw [← hw]
        decide)⟩

/-- C10: In `_parse_laterals` the `columns` value handed to the `Lateral`
constructor is read whether or not the optional `AS` matched: with `AS`
present the clause parses, and when `AS` is absent for the first
`LATERAL VIEW` clause the read hits an unassigned local
(`UnboundLocalError`), so the embedding is not total on such inputs —
absence of `AS` does not produce an empty column list. -/
theorem C10_lateral_columns_unbound :
    (parse_laterals .RAISE 16).run c10_state = .error (.unboundLocal "columns") ∧
    (∃ vs s', (parse_laterals .RAISE 16).run c10_as_state = .ok (vs, s')) :=
  ⟨by rfl, ⟨_, _, by rfl⟩⟩

end Sqlglot
